import Mathlib

/-!
# KWin: virtual output, render loop and window item visibility

A shallow embedding of

* `src/backends/virtual/virtual_output.cpp` (class `VirtualOutput`),
* `src/windowitem.h` (class `WindowItem`, declarations only),
* `src/kcmkwin/kwincompositing/main.cpp` (class `KWinCompositingKCM`, the animation speed),
* `src/popup_input_filter.cpp` (class `PopupInputFilter`),

together with the collaborators these files call but which are not part of the
source tree (`RenderLoop`, `SoftwareVsyncMonitor`, `VirtualBackend`, the `Output`
base class, the body of `WindowItem`).  Objects are embedded as values and every member function
as a function from the state before the call to the state after it.
-/

namespace KWin

/-! ## Qt value types -/

/-- Two's-complement reduction of an integer to the range of a 32-bit `int`. -/
def wrapInt32 (x : Int) : Int :=
  (x + 2147483648) % 4294967296 - 2147483648

/-- The integer is a value of the 32-bit `int` type. -/
def isInt32 (x : Int) : Prop :=
  -2147483648 ≤ x ∧ x ≤ 2147483647

instance (x : Int) : Decidable (isInt32 x) := by
  unfold isInt32
  infer_instance

/-- `QPoint`: a pair of `int` coordinates. -/
structure QPoint where
  x : Int
  y : Int
  deriving DecidableEq, Repr

/-- `QSize`: an `int` width and height. -/
structure QSize where
  width : Int
  height : Int
  deriving DecidableEq, Repr

/-- `QRect` as Qt stores it: the left/top and the right/bottom coordinates, both inclusive. -/
structure QRect where
  x1 : Int
  y1 : Int
  x2 : Int
  y2 : Int
  deriving DecidableEq, Repr

/-- Both extents of the size are `int` values. -/
def QSize.isValue (s : QSize) : Prop :=
  isInt32 s.width ∧ isInt32 s.height

instance (s : QSize) : Decidable s.isValue := by
  unfold QSize.isValue
  infer_instance

/-- `QRect(const QPoint &topLeft, const QSize &size)`:
`x2 = topLeft.x() + size.width() - 1`, `y2 = topLeft.y() + size.height() - 1` in `int` arithmetic. -/
def QRect.fromPointSize (topLeft : QPoint) (size : QSize) : QRect :=
  { x1 := topLeft.x
    y1 := topLeft.y
    x2 := wrapInt32 (topLeft.x + size.width - 1)
    y2 := wrapInt32 (topLeft.y + size.height - 1) }

/-- `QRect(int x, int y, int width, int height)`. -/
def QRect.fromXYWH (x y width height : Int) : QRect :=
  { x1 := x
    y1 := y
    x2 := wrapInt32 (x + width - 1)
    y2 := wrapInt32 (y + height - 1) }

/-- `QRect::topLeft()`. -/
def QRect.topLeft (r : QRect) : QPoint :=
  { x := r.x1, y := r.y1 }

/-- `QRect::size()`: `width() = x2 - x1 + 1`, `height() = y2 - y1 + 1` in `int` arithmetic. -/
def QRect.size (r : QRect) : QSize :=
  { width := wrapInt32 (r.x2 - r.x1 + 1)
    height := wrapInt32 (r.y2 - r.y1 + 1) }

/-! ## RenderLoop (the frame scheduler) -/

/-- Modelled from the spec: `RenderLoop` and `RenderLoopPrivate` (`renderloop_p.h`) are not in
the source.  The fields are those of the spec's FrameScheduler; `refreshRate` is the value
handed to `setRefreshRate` in milli-hertz, from which the refresh interval derives.  Three
fields are records of what has happened: `armCount` counts the arm requests issued to the
vsync source (one per scheduled paint), `retiredCount` counts the scheduled frames that
have been acknowledged by a completion or cancelled by a reset, and `frameCompletedCalls`
lists the timestamps of the `notifyFrameCompleted` calls received, oldest first. -/
structure RenderLoop where
  refreshRate : Int
  pendingRepaintRequested : Bool
  inFlightFrame : Bool
  lastPresentationTimestamp : Int
  inhibitionCount : Nat
  armCount : Nat
  retiredCount : Nat
  frameCompletedCalls : List Int
  deriving DecidableEq, Repr

namespace RenderLoop

/-- Modelled from the spec: the `RenderLoop` constructor is not in the source.  A new
scheduler is idle, uninhibited, has presented nothing (last presentation at 0) and has
received no call; its initial refresh rate is not fixed by the spec and is a parameter. -/
def create (defaultRefreshRate : Int) : RenderLoop :=
  { refreshRate := defaultRefreshRate
    pendingRepaintRequested := false
    inFlightFrame := false
    lastPresentationTimestamp := 0
    inhibitionCount := 0
    armCount := 0
    retiredCount := 0
    frameCompletedCalls := [] }

/-- Modelled from the spec: `refreshInterval`, the period in nanoseconds of a rate given in
milli-hertz (60000 mHz is 16.67 ms); 0 for a rate that is not positive. -/
def refreshInterval (rl : RenderLoop) : Int :=
  if 0 < rl.refreshRate then 1000000000000 / rl.refreshRate else 0

/-- Modelled from the spec: `RenderLoop::setRefreshRate` is not in the source; it stores the
rate (and thereby the refresh interval). -/
def setRefreshRate (rl : RenderLoop) (refreshRate : Int) : RenderLoop :=
  { rl with refreshRate := refreshRate }

/-- Modelled from the spec: `requestRepaint()` is not in the source.  With no frame in flight
and no inhibition the vsync source is armed and `inFlightFrame` is set; with a frame in
flight, or while inhibited, only `pendingRepaintRequested` is set. -/
def requestRepaint (rl : RenderLoop) : RenderLoop :=
  if rl.inFlightFrame then
    { rl with pendingRepaintRequested := true }
  else if 0 < rl.inhibitionCount then
    { rl with pendingRepaintRequested := true }
  else
    { rl with inFlightFrame := true, armCount := rl.armCount + 1 }

/-- Modelled from the spec: `inhibit()` is not in the source; it raises the inhibition count. -/
def inhibit (rl : RenderLoop) : RenderLoop :=
  { rl with inhibitionCount := rl.inhibitionCount + 1 }

/-- Modelled from the spec: `uninhibit()` is not in the source.  It lowers the inhibition
count; when the count reaches zero with a request pending, scheduling resumes at once. -/
def uninhibit (rl : RenderLoop) : RenderLoop :=
  if rl.inhibitionCount = 0 then
    rl
  else
    let rl1 := { rl with inhibitionCount := rl.inhibitionCount - 1 }
    if rl1.inhibitionCount = 0 ∧ rl1.pendingRepaintRequested = true then
      requestRepaint { rl1 with pendingRepaintRequested := false }
    else
      rl1

/-- Modelled from the spec: the reset forced by a backend disconnect is not in the source; it
clears the in-flight and pending flags. -/
def reset (rl : RenderLoop) : RenderLoop :=
  { rl with
    inFlightFrame := false
    pendingRepaintRequested := false
    retiredCount := if rl.inFlightFrame then rl.retiredCount + 1 else rl.retiredCount }

end RenderLoop

namespace RenderLoopPrivate

/-- Modelled from the spec: `RenderLoopPrivate::notifyFrameCompleted` (the spec's
`onFrameCompleted`) is not in the source.  The call is recorded; a timestamp not later than
`lastPresentationTimestamp` is a timing anomaly and is otherwise ignored; an accepted
timestamp clears `inFlightFrame` and, when a repaint is pending, starts the next
`requestRepaint()` cycle. -/
def notifyFrameCompleted (rl : RenderLoop) (timestamp : Int) : RenderLoop :=
  let rl1 := { rl with frameCompletedCalls := rl.frameCompletedCalls ++ [timestamp] }
  if timestamp ≤ rl1.lastPresentationTimestamp then
    rl1
  else
    let rl2 :=
      { rl1 with
        inFlightFrame := false
        lastPresentationTimestamp := timestamp
        retiredCount := if rl1.inFlightFrame then rl1.retiredCount + 1 else rl1.retiredCount }
    if rl2.pendingRepaintRequested then
      RenderLoop.requestRepaint { rl2 with pendingRepaintRequested := false }
    else
      rl2

end RenderLoopPrivate

/-! ## SoftwareVsyncMonitor -/

/-- The member functions a signal of this development can be connected to. -/
inductive Slot where
  | virtualOutputVblank
  deriving DecidableEq, Repr

/-- Modelled from the spec: `SoftwareVsyncMonitor` (`softwarevsyncmonitor.h`) is not in the
source.  The model keeps the refresh rate in milli-hertz, the slots connected to its
`vblankOccurred` signal, in connection order, and, from the spec's VsyncSource, whether an
arm cycle is open (`armed`). -/
structure SoftwareVsyncMonitor where
  refreshRate : Int
  vblankOccurredSlots : List Slot
  armed : Bool
  deriving DecidableEq, Repr

namespace SoftwareVsyncMonitor

/-- Modelled from the spec: `SoftwareVsyncMonitor::create()` is not in the source.  A new
monitor has no connection and is not armed; its initial refresh rate is a parameter. -/
def create (defaultRefreshRate : Int) : SoftwareVsyncMonitor :=
  { refreshRate := defaultRefreshRate, vblankOccurredSlots := [], armed := false }

/-- Modelled from the spec: `arm(deadline)` is not in the source; it opens an arm cycle, for
which exactly one future tick is scheduled. -/
def arm (m : SoftwareVsyncMonitor) : SoftwareVsyncMonitor :=
  { m with armed := true }

/-- Modelled from the spec: `cancel()` is not in the source; it ends the arm cycle, so that no
tick fires for it. -/
def cancel (m : SoftwareVsyncMonitor) : SoftwareVsyncMonitor :=
  { m with armed := false }

/-- Modelled from the spec: `setRefreshRate` is not in the source; it stores the rate. -/
def setRefreshRate (m : SoftwareVsyncMonitor) (refreshRate : Int) : SoftwareVsyncMonitor :=
  { m with refreshRate := refreshRate }

/-- `QObject::connect(monitor, &VsyncMonitor::vblankOccurred, receiver, slot)`. -/
def connectVblankOccurred (m : SoftwareVsyncMonitor) (slot : Slot) : SoftwareVsyncMonitor :=
  { m with vblankOccurredSlots := m.vblankOccurredSlots ++ [slot] }

end SoftwareVsyncMonitor

/-! ## VirtualOutput -/

/-- Modelled from the spec: `OutputMode` is not in the source; a mode is the immutable pair
of a pixel size and a refresh rate in milli-hertz. -/
structure OutputMode where
  size : QSize
  refreshRate : Int
  deriving DecidableEq, Repr

/-- The `Information` record handed to `setInformation`; the constructor sets the name only. -/
structure Information where
  name : String
  deriving DecidableEq, Repr

/-- `VirtualOutput`: the members declared for the class (`m_renderLoop`, `m_vsyncMonitor`,
`m_identifier`) and the state of the `Output` base class that the member functions write
(information, mode list, current mode, position), with the enabled flag of the spec's
display output.  The objects held through `std::unique_ptr` are embedded as the values of
their fields. -/
structure VirtualOutput where
  m_renderLoop : RenderLoop
  m_vsyncMonitor : SoftwareVsyncMonitor
  m_identifier : Int
  information : Information
  modes : List OutputMode
  currentMode : Option OutputMode
  position : QPoint
  enabled : Bool
  deriving DecidableEq, Repr

namespace VirtualOutput

/-- Modelled from the spec: `Output::setModesInternal` is not in the source; it replaces the
mode list and the current mode. -/
def setModesInternal (o : VirtualOutput) (modes : List OutputMode) (currentMode : OutputMode) :
    VirtualOutput :=
  { o with modes := modes, currentMode := some currentMode }

/-- Modelled from the spec: `Output::moveTo` is not in the source; it repositions the output. -/
def moveTo (o : VirtualOutput) (pos : QPoint) : VirtualOutput :=
  { o with position := pos }

/-- Modelled from the spec: `Output::geometry` is not in the source; the geometry is the
position together with the pixel size of the current mode (an invalid `QSize()` without one). -/
def geometry (o : VirtualOutput) : QRect :=
  match o.currentMode with
  | some mode => QRect.fromPointSize o.position mode.size
  | none => QRect.fromPointSize o.position { width := -1, height := -1 }

/-- `VirtualOutput::VirtualOutput`.  `identifier` is the value of the function-local
`static int identifier` before the construction; the result carries its value afterwards.
The objects made by `std::make_unique<RenderLoop>()` and `SoftwareVsyncMonitor::create()`
start at `defaultRefreshRate`.  A new output is not enabled before `updateEnablement(true)`. -/
def create (identifier : Int) (defaultRefreshRate : Int) : VirtualOutput × Int :=
  let next := wrapInt32 (identifier + 1)
  ({ m_renderLoop := RenderLoop.create defaultRefreshRate
     m_vsyncMonitor :=
       (SoftwareVsyncMonitor.create defaultRefreshRate).connectVblankOccurred
         Slot.virtualOutputVblank
     m_identifier := next
     information := { name := "Virtual-" ++ toString next }
     modes := []
     currentMode := none
     position := { x := 0, y := 0 }
     enabled := false }, next)

/-- `VirtualOutput::renderLoop`. -/
def renderLoop (o : VirtualOutput) : RenderLoop :=
  o.m_renderLoop

/-- `VirtualOutput::vsyncMonitor`. -/
def vsyncMonitor (o : VirtualOutput) : SoftwareVsyncMonitor :=
  o.m_vsyncMonitor

/-- `VirtualOutput::setGeometry`. -/
def setGeometry (o : VirtualOutput) (geo : QRect) : VirtualOutput :=
  let mode : OutputMode := { size := geo.size, refreshRate := o.m_vsyncMonitor.refreshRate }
  (o.setModesInternal [mode] mode).moveTo geo.topLeft

/-- `VirtualOutput::init`. -/
def init (o : VirtualOutput) (logicalPosition : QPoint) (pixelSize : QSize) : VirtualOutput :=
  let refreshRate : Int := 60000
  let o1 := { o with m_renderLoop := o.m_renderLoop.setRefreshRate refreshRate }
  let o2 := { o1 with m_vsyncMonitor := o1.m_vsyncMonitor.setRefreshRate refreshRate }
  o2.setGeometry (QRect.fromPointSize logicalPosition pixelSize)

/-- `VirtualOutput::vblank`. -/
def vblank (o : VirtualOutput) (timestamp : Int) : VirtualOutput :=
  { o with m_renderLoop := RenderLoopPrivate.notifyFrameCompleted o.m_renderLoop timestamp }

/-- `VirtualOutput::updateEnablement`.  `VirtualBackend` is not in the source: its state is a
value of an arbitrary type `β` and its `enableOutput(output, enable)` is the parameter
`enableOutput`, which is handed the output and yields the backend state and the output
after the call. -/
def updateEnablement {β : Type} (enableOutput : β → VirtualOutput → Bool → β × VirtualOutput)
    (backend : β) (o : VirtualOutput) (enable : Bool) : β × VirtualOutput :=
  enableOutput backend o enable

/-- Invocation of a connected slot on the output with the signal's argument. -/
def invokeSlot (o : VirtualOutput) (timestamp : Int) : Slot → VirtualOutput
  | Slot.virtualOutputVblank => o.vblank timestamp

/-- Emission of `vblankOccurred(timestamp)` by the output's vsync monitor: every slot
connected at the time of the emission is invoked once, in connection order. -/
def emitVblankOccurred (o : VirtualOutput) (timestamp : Int) : VirtualOutput :=
  o.m_vsyncMonitor.vblankOccurredSlots.foldl (fun acc slot => acc.invokeSlot timestamp slot) o

/-- The member functions of `VirtualOutput` that are called on an output after its
construction, together with the emission of its monitor's signal. -/
inductive OutputCall where
  | init (logicalPosition : QPoint) (pixelSize : QSize)
  | setGeometry (geo : QRect)
  | updateEnablement (enable : Bool)
  | vblankOccurred (timestamp : Int)
  deriving DecidableEq, Repr

/-- One call on an output attached to a backend with state of type `β`. -/
def perform {β : Type} (enableOutput : β → VirtualOutput → Bool → β × VirtualOutput) :
    β × VirtualOutput → OutputCall → β × VirtualOutput
  | (backend, o), OutputCall.init logicalPosition pixelSize =>
      (backend, o.init logicalPosition pixelSize)
  | (backend, o), OutputCall.setGeometry geo => (backend, o.setGeometry geo)
  | (backend, o), OutputCall.updateEnablement enable =>
      updateEnablement enableOutput backend o enable
  | (backend, o), OutputCall.vblankOccurred timestamp =>
      (backend, o.emitVblankOccurred timestamp)

/-- A sequence of calls, oldest first. -/
def performAll {β : Type} (enableOutput : β → VirtualOutput → Bool → β × VirtualOutput)
    (start : β × VirtualOutput) (calls : List OutputCall) : β × VirtualOutput :=
  calls.foldl (perform enableOutput) start

end VirtualOutput

/-! ## Enablement and pacing of an output -/

/-- Modelled from the spec: `VirtualBackend::enableOutput` is not in the source.  Enabling
sets the enabled flag of the output.  Disabling clears it, cancels the output's vsync source
and forces its scheduler idle (the reset of the scheduler).  The backend has no state of
its own in the model. -/
def VirtualBackend.enableOutput (backend : Unit) (o : VirtualOutput) (enable : Bool) :
    Unit × VirtualOutput :=
  if enable then
    (backend, { o with enabled := true })
  else
    (backend,
      { o with
        enabled := false
        m_vsyncMonitor := o.m_vsyncMonitor.cancel
        m_renderLoop := o.m_renderLoop.reset })

namespace VirtualOutput

/-- Modelled from the spec: the arm requests of the scheduler go to the output's vsync
source.  When the scheduler has issued an arm request since the state `before`, the source
is armed. -/
def forwardArm (before : RenderLoop) (o : VirtualOutput) : VirtualOutput :=
  if o.m_renderLoop.armCount = before.armCount then
    o
  else
    { o with m_vsyncMonitor := o.m_vsyncMonitor.arm }

/-- Modelled from the spec: `requestRepaint()` on the scheduler of the output, which arms the
output's source when it schedules a frame.  On a disabled output nothing is scheduled: a
disabled output has no subscribed vsync source. -/
def requestRepaint (o : VirtualOutput) : VirtualOutput :=
  if o.enabled then
    forwardArm o.m_renderLoop { o with m_renderLoop := o.m_renderLoop.requestRepaint }
  else
    o

end VirtualOutput

namespace VirtualOutput

end VirtualOutput

/-! ## RenderLoop call sequences -/

/-- The calls the compositor and the backend make on a frame scheduler. -/
inductive RenderLoopCall where
  | requestRepaint
  | notifyFrameCompleted (timestamp : Int)
  | setRefreshRate (refreshRate : Int)
  | inhibit
  | uninhibit
  | reset
  deriving DecidableEq, Repr

namespace RenderLoop

/-- One call on a frame scheduler. -/
def perform (rl : RenderLoop) : RenderLoopCall → RenderLoop
  | RenderLoopCall.requestRepaint => rl.requestRepaint
  | RenderLoopCall.notifyFrameCompleted timestamp =>
      RenderLoopPrivate.notifyFrameCompleted rl timestamp
  | RenderLoopCall.setRefreshRate refreshRate => rl.setRefreshRate refreshRate
  | RenderLoopCall.inhibit => rl.inhibit
  | RenderLoopCall.uninhibit => rl.uninhibit
  | RenderLoopCall.reset => rl.reset

/-- A sequence of calls, oldest first. -/
def performAll (rl : RenderLoop) (calls : List RenderLoopCall) : RenderLoop :=
  calls.foldl perform rl

/-- The scheduler states reachable from a new scheduler. -/
def Reachable (rl : RenderLoop) : Prop :=
  ∃ (defaultRefreshRate : Int) (calls : List RenderLoopCall),
    rl = (create defaultRefreshRate).performAll calls

/-- The number of frames scheduled and neither acknowledged nor cancelled so far, read off
the records of the scheduler. -/
def framesInFlight (rl : RenderLoop) : Nat :=
  rl.armCount - rl.retiredCount

/-- A call repeated `n` times. -/
def repeatCall (rl : RenderLoop) (call : RenderLoopCall) (n : Nat) : RenderLoop :=
  rl.performAll (List.replicate n call)

/-- The records agree with the flag: the frames armed are the frames retired, and one more
while a frame is in flight. -/
def Balanced (rl : RenderLoop) : Prop :=
  rl.armCount = rl.retiredCount + (if rl.inFlightFrame = true then 1 else 0)

/-- A burst of `n` `requestRepaint()` calls followed by the completion at `timestamp`. -/
def afterBurst (rl : RenderLoop) (n : Nat) (timestamp : Int) : RenderLoop :=
  RenderLoopPrivate.notifyFrameCompleted (rl.repeatCall RenderLoopCall.requestRepaint n)
    timestamp

/-- The state of `afterBurst` once every inhibition held at the start has been released by
its paired `uninhibit()`. -/
def afterBurstResumed (rl : RenderLoop) (n : Nat) (timestamp : Int) : RenderLoop :=
  (rl.afterBurst n timestamp).repeatCall RenderLoopCall.uninhibit rl.inhibitionCount

end RenderLoop

/-! ## WindowItem visibility -/

/-- The visibility reasons: one tag for each enumerator `PAINT_DISABLED_BY_*` of
`WindowItem`. -/
inductive Reason where
  | hidden
  | deleting
  | onOtherDesktop
  | minimized
  | onOtherActivity
  deriving DecidableEq, Repr

/-- The enumerator of `WindowItem` a reason stands for, as declared in `windowitem.h`. -/
def Reason.flag : Reason → Int
  | Reason.hidden => 1 * 2 ^ 0
  | Reason.deleting => 1 * 2 ^ 1
  | Reason.onOtherDesktop => 1 * 2 ^ 2
  | Reason.minimized => 1 * 2 ^ 3
  | Reason.onOtherActivity => 1 * 2 ^ 5

/-- `WindowItem`: the five counters declared in `windowitem.h`, and, from the spec's scene
node, the explicit hidden flag, the effective visibility of each ancestor (parent first) and
the maintained visibility of the item itself. -/
structure WindowItem where
  m_forceVisibleByHiddenCount : Int
  m_forceVisibleByDeleteCount : Int
  m_forceVisibleByDesktopCount : Int
  m_forceVisibleByMinimizeCount : Int
  m_forceVisibleByActivityCount : Int
  explicitHidden : Bool
  ancestorsVisible : List Bool
  visible : Bool
  deriving DecidableEq, Repr

namespace WindowItem

/-- The counter kept for a reason. -/
def count (w : WindowItem) : Reason → Int
  | Reason.hidden => w.m_forceVisibleByHiddenCount
  | Reason.deleting => w.m_forceVisibleByDeleteCount
  | Reason.onOtherDesktop => w.m_forceVisibleByDesktopCount
  | Reason.minimized => w.m_forceVisibleByMinimizeCount
  | Reason.onOtherActivity => w.m_forceVisibleByActivityCount

/-- Assignment to the counter kept for a reason. -/
def setCount (w : WindowItem) (reason : Reason) (value : Int) : WindowItem :=
  match reason with
  | Reason.hidden => { w with m_forceVisibleByHiddenCount := value }
  | Reason.deleting => { w with m_forceVisibleByDeleteCount := value }
  | Reason.onOtherDesktop => { w with m_forceVisibleByDesktopCount := value }
  | Reason.minimized => { w with m_forceVisibleByMinimizeCount := value }
  | Reason.onOtherActivity => { w with m_forceVisibleByActivityCount := value }

/-- The five counters, in declaration order. -/
def counts (w : WindowItem) : List Int :=
  [w.m_forceVisibleByHiddenCount, w.m_forceVisibleByDeleteCount,
   w.m_forceVisibleByDesktopCount, w.m_forceVisibleByMinimizeCount,
   w.m_forceVisibleByActivityCount]

/-- Modelled from the spec: the body of `WindowItem::computeVisibility` (`windowitem.cpp`) is
not in the source.  Effective visibility is (not explicitly hidden, or some counter
positive) and all ancestors visible. -/
def computeVisibility (w : WindowItem) : Bool :=
  (!w.explicitHidden || w.counts.any (fun c => decide (0 < c))) && w.ancestorsVisible.all id

/-- Modelled from the spec: the body of `WindowItem::updateVisibility` is not in the source;
it stores the recomputed visibility as the maintained one. -/
def updateVisibility (w : WindowItem) : WindowItem :=
  { w with visible := w.computeVisibility }

/-- Modelled from the spec: the `WindowItem` constructor is not in the source.  The counters
start at 0, as their declarations say; the explicit hidden flag and the ancestors come from
the window and the parent item. -/
def create (explicitHidden : Bool) (ancestorsVisible : List Bool) : WindowItem :=
  updateVisibility
    { m_forceVisibleByHiddenCount := 0
      m_forceVisibleByDeleteCount := 0
      m_forceVisibleByDesktopCount := 0
      m_forceVisibleByMinimizeCount := 0
      m_forceVisibleByActivityCount := 0
      explicitHidden := explicitHidden
      ancestorsVisible := ancestorsVisible
      visible := false }

/-- Modelled from the spec: the body of `WindowItem::refVisible` is not in the source.  It
increments the counter of the reason and recomputes visibility; when the item is visible
then, every ancestor is forced visible.  The counter is an `int`, as `windowitem.h`
declares it, and the increment wraps around at 32 bits. -/
def refVisible (w : WindowItem) (reason : Reason) : WindowItem :=
  let w1 := (w.setCount reason (wrapInt32 (w.count reason + 1))).updateVisibility
  if w1.visible then
    { w1 with ancestorsVisible := w1.ancestorsVisible.map (fun _ => true) }
  else
    w1

/-- Modelled from the spec: the body of `WindowItem::unrefVisible` is not in the source.  It
decrements the counter of the reason and recomputes visibility; a decrement that would go
below zero is a no-op (and a diagnostic).  The decrement is of a positive `int` and cannot
overflow. -/
def unrefVisible (w : WindowItem) (reason : Reason) : WindowItem :=
  if w.count reason ≤ 0 then
    w
  else
    (w.setCount reason (w.count reason - 1)).updateVisibility

end WindowItem

/-- The two calls that change the counters of a window item. -/
inductive VisibilityCall where
  | refVisible (reason : Reason)
  | unrefVisible (reason : Reason)
  deriving DecidableEq, Repr

namespace WindowItem

/-- One call on a window item. -/
def perform (w : WindowItem) : VisibilityCall → WindowItem
  | VisibilityCall.refVisible reason => w.refVisible reason
  | VisibilityCall.unrefVisible reason => w.unrefVisible reason

/-- A sequence of calls, oldest first. -/
def performAll (w : WindowItem) (calls : List VisibilityCall) : WindowItem :=
  calls.foldl perform w

end WindowItem

/-! ## WindowItem: the reason tags -/

/-- The enumerators of `WindowItem`, in declaration order. -/
def Reason.all : List Reason :=
  [Reason.hidden, Reason.deleting, Reason.onOtherDesktop, Reason.minimized,
   Reason.onOtherActivity]

/-- The bitwise OR of the enumerators of a set of reasons, the set given by its membership
test. -/
def Reason.mask (member : Reason → Bool) : Int :=
  Reason.all.foldl (fun acc r => if member r then Int.lor acc r.flag else acc) 0

/-- The number a string of decimal digits denotes, the most significant digit first. -/
def decimalValue (cs : List Char) : Nat :=
  cs.foldl (fun a c => a * 10 + (c.toNat - 48)) 0

/-! ## VirtualOutput: construction in sequence -/

namespace VirtualOutput

/-- The outputs made by `n` constructor calls in a row, oldest first, the function-local
static counter starting at `identifier` and handed from each call to the next. -/
def constructAll (identifier : Int) (defaultRefreshRate : Int) : Nat → List VirtualOutput
  | 0 => []
  | n + 1 =>
      (create identifier defaultRefreshRate).1
        :: constructAll (create identifier defaultRefreshRate).2 defaultRefreshRate n

/-- The first `n` outputs constructed in a process: the static counter is initialised
to -1. -/
def constructedInProcess (defaultRefreshRate : Int) (n : Nat) : List VirtualOutput :=
  constructAll (-1) defaultRefreshRate n

end VirtualOutput

/-! ## KWinCompositingKCM (`kcmkwin/kwincompositing/main.cpp`) -/

/-- `s_animationMultipliers`.  The `qreal` entries 0.5, 0.25 and 0.125 are dyadic, so every
entry is the rational number it denotes, exactly. -/
def s_animationMultipliers : List ℚ :=
  [8, 4, 2, 1, 1 / 2, 1 / 4, 1 / 8, 0]

/-- `std::greater<qreal>()`. -/
def greater (a b : ℚ) : Bool :=
  decide (a > b)

/-- The loop of `std::lower_bound(first, last, value, comp)` on the range that starts at
index `first` and has `count` elements: the standard binary search, one iteration for each
unit of `fuel`. -/
def lowerBoundLoop (xs : List ℚ) (comp : ℚ → ℚ → Bool) (value : ℚ) :
    Nat → Nat → Nat → Nat
  | 0, first, _ => first
  | fuel + 1, first, count =>
      if count = 0 then
        first
      else
        let step := count / 2
        let it := first + step
        if comp (xs.getD it 0) value then
          lowerBoundLoop xs comp value fuel (it + 1) (count - (step + 1))
        else
          lowerBoundLoop xs comp value fuel first step

/-- `std::distance(xs.begin(), std::lower_bound(xs.begin(), xs.end(), value, comp))`.  The
range loses at least one element in every iteration, so its length is fuel enough. -/
def lowerBound (xs : List ℚ) (comp : ℚ → ℚ → Bool) (value : ℚ) : Nat :=
  lowerBoundLoop xs comp value xs.length 0 xs.length

/-- The index `load()` computes for a multiplier. -/
def loadIndex (multiplier : ℚ) : Int :=
  (lowerBound s_animationMultipliers greater multiplier : Nat)

/-- `QSlider` (Qt): the range and the value of the slider. -/
structure QSlider where
  minimum : Int
  maximum : Int
  value : Int
  deriving DecidableEq, Repr

namespace QSlider

/-- `QAbstractSlider::setValue`: the value is bounded to the range; the result says whether
`valueChanged` is emitted. -/
def setValue (s : QSlider) (value : Int) : QSlider × Bool :=
  let bounded := max s.minimum (min s.maximum value)
  if s.value = bounded then (s, false) else ({ s with value := bounded }, true)

/-- `QAbstractSlider::setMaximum`: `setRange(qMin(minimum, max), max)`, the value bounded to
the new range. -/
def setMaximum (s : QSlider) (maximum : Int) : QSlider :=
  let lower := min s.minimum maximum
  let upper := max lower maximum
  ({ s with minimum := lower, maximum := upper }.setValue s.value).1

end QSlider

/-- `KWinCompositingSetting` is generated from a configuration description that is not in
the source.  The model keeps the `AnimationDurationFactor` entry: its value in memory, its
value in the configuration file, and its default. -/
structure KWinCompositingSetting where
  animationDurationFactor : ℚ
  config : ℚ
  defaultAnimationDurationFactorValue : ℚ
  deriving DecidableEq

namespace KWinCompositingSetting

/-- `setAnimationDurationFactor`. -/
def setAnimationDurationFactor (s : KWinCompositingSetting) (v : ℚ) : KWinCompositingSetting :=
  { s with animationDurationFactor := v }

/-- `findItem("AnimationDurationFactor")->readConfig(config())`. -/
def readConfig (s : KWinCompositingSetting) : KWinCompositingSetting :=
  { s with animationDurationFactor := s.config }

/-- `save()`: the value in memory is written to the configuration. -/
def save (s : KWinCompositingSetting) : KWinCompositingSetting :=
  { s with config := s.animationDurationFactor }

end KWinCompositingSetting

/-- `KWinCompositingKCM`: the animation-speed slider of the form, the settings object and
the answer of `isRunningPlasma()`, which does not change while the module lives.  The
`kcfg_` widgets, which `KCModule` manages itself, and the warnings are not part of the
state. -/
structure KWinCompositingKCM where
  animationDurationFactor : QSlider
  m_settings : KWinCompositingSetting
  isRunningPlasma : Bool
  deriving DecidableEq

namespace KWinCompositingKCM

/-- The slot connected to the slider's `valueChanged` in `init()`: the setting takes the
multiplier at the slider's value (`updateUnmanagedItemStatus()`, which runs first, only
reports to `KCModule` whether the value differs from the stored and the default one).
`s_animationMultipliers[i]` is defined for an index of the vector only; there is no result
otherwise. -/
def onValueChanged (k : KWinCompositingKCM) : Option KWinCompositingKCM :=
  match s_animationMultipliers[k.animationDurationFactor.value.toNat]? with
  | some multiplier =>
      if 0 ≤ k.animationDurationFactor.value then
        some { k with m_settings := k.m_settings.setAnimationDurationFactor multiplier }
      else
        none
  | none => none

/-- `m_form.animationDurationFactor->setValue(value)` with the connected slot run when
`valueChanged` is emitted. -/
def setSliderValue (k : KWinCompositingKCM) (value : Int) : Option KWinCompositingKCM :=
  match k.animationDurationFactor.setValue value with
  | (slider, true) => onValueChanged { k with animationDurationFactor := slider }
  | (slider, false) => some { k with animationDurationFactor := slider }

/-- `KWinCompositingKCM::init`, as far as the slider goes: the maximum becomes the last index
of `s_animationMultipliers` (the slot is connected after that). -/
def init (k : KWinCompositingKCM) : KWinCompositingKCM :=
  { k with
    animationDurationFactor :=
      k.animationDurationFactor.setMaximum ((s_animationMultipliers.length : Int) - 1) }

/-- The constructor: `setupUi` makes the slider (`formSlider`, from a form description that
is not in the source), then `init()` runs. -/
def create (formSlider : QSlider) (settings : KWinCompositingSetting) (isRunningPlasma : Bool) :
    KWinCompositingKCM :=
  init
    { animationDurationFactor := formSlider
      m_settings := settings
      isRunningPlasma := isRunningPlasma }

/-- `KWinCompositingKCM::load`, as far as the slider and the setting go. -/
def load (k : KWinCompositingKCM) : Option KWinCompositingKCM :=
  let k1 := { k with m_settings := k.m_settings.readConfig }
  let multiplier := k1.m_settings.animationDurationFactor
  let index := loadIndex multiplier
  k1.setSliderValue index

/-- `KWinCompositingKCM::defaults`. -/
def defaults (k : KWinCompositingKCM) : Option KWinCompositingKCM :=
  if !k.isRunningPlasma then
    k.setSliderValue 3
  else
    some k

/-- `KWinCompositingKCM::save`, up to the signal sent to the running compositors. -/
def save (k : KWinCompositingKCM) : Option KWinCompositingKCM :=
  if !k.isRunningPlasma then
    match s_animationMultipliers[k.animationDurationFactor.value.toNat]? with
    | some animationDuration =>
        if 0 ≤ k.animationDurationFactor.value then
          some { k with
            m_settings := (k.m_settings.setAnimationDurationFactor animationDuration).save }
        else
          none
    | none => none
  else
    some { k with m_settings := k.m_settings.save }

end KWinCompositingKCM

/-! ## PopupInputFilter (`popup_input_filter.cpp`) -/

/-- `QRect::translated(const QPoint &)`. -/
def QRect.translated (r : QRect) (p : QPoint) : QRect :=
  { x1 := wrapInt32 (r.x1 + p.x)
    y1 := wrapInt32 (r.y1 + p.y)
    x2 := wrapInt32 (r.x2 + p.x)
    y2 := wrapInt32 (r.y2 + p.y) }

/-- `QRect::contains(const QPoint &)`, as Qt implements it for `proper = false`. -/
def QRect.contains (r : QRect) (p : QPoint) : Bool :=
  let l := if r.x2 < wrapInt32 (r.x1 - 1) then r.x2 else r.x1
  let rr := if r.x2 < wrapInt32 (r.x1 - 1) then r.x1 else r.x2
  if p.x < l ∨ p.x > rr then
    false
  else
    let t := if r.y2 < wrapInt32 (r.y1 - 1) then r.y2 else r.y1
    let b := if r.y2 < wrapInt32 (r.y1 - 1) then r.y1 else r.y2
    if p.y < t ∨ p.y > b then false else true

/-- A `Window *`: the address of a window object. -/
abbrev WindowPtr := Nat

/-- What `pointerEvent` reads from the window that `findToplevel` returns. -/
structure Toplevel where
  window : WindowPtr
  isDecorated : Bool
  clientPos : QPoint
  clientSize : QSize
  pos : QPoint
  deriving DecidableEq, Repr

/-- The event types `pointerEvent` tells apart. -/
inductive MouseEventType where
  | MouseButtonPress
  | MouseButtonRelease
  | MouseMove
  deriving DecidableEq, Repr

/-- `PopupInputFilter`: the list `m_popupWindows`, and a record of the `popupDone()` calls
made on windows, oldest first. -/
structure PopupInputFilter where
  m_popupWindows : List WindowPtr
  popupDoneCalls : List WindowPtr
  deriving DecidableEq, Repr

namespace PopupInputFilter

/-- The constructor: no popup is tracked. -/
def create : PopupInputFilter :=
  { m_popupWindows := [], popupDoneCalls := [] }

/-- `PopupInputFilter::handleWindowAdded`.  `hasPopupGrab` is what `window->hasPopupGrab()`
returns during the call.  The two connections made for a tracked window only cause later
calls of `handleWindowAdded` and `handleWindowRemoved`. -/
def handleWindowAdded (f : PopupInputFilter) (window : WindowPtr) (hasPopupGrab : Bool) :
    PopupInputFilter :=
  if f.m_popupWindows.contains window then
    f
  else if hasPopupGrab then
    { f with m_popupWindows := f.m_popupWindows ++ [window] }
  else
    f

/-- `PopupInputFilter::handleWindowRemoved`: `QList::removeOne` removes the first
occurrence. -/
def handleWindowRemoved (f : PopupInputFilter) (window : WindowPtr) : PopupInputFilter :=
  { f with m_popupWindows := f.m_popupWindows.erase window }

/-- `PopupInputFilter::cancelPopups`: while the list is not empty, its last window is taken
off and `popupDone()` is called on it.  The list gets shorter in every iteration. -/
def cancelPopups (f : PopupInputFilter) : PopupInputFilter :=
  if h : f.m_popupWindows = [] then
    f
  else
    cancelPopups
      { m_popupWindows := f.m_popupWindows.dropLast
        popupDoneCalls := f.popupDoneCalls ++ [f.m_popupWindows.getLast h] }
termination_by f.m_popupWindows.length
decreasing_by
  simp only [List.length_dropLast]
  have hpos : 0 < f.m_popupWindows.length := List.length_pos.mpr h
  omega

/-- `PopupInputFilter::pointerEvent`.  `findToplevel` stands for `input()->findToplevel` and
`belongToSameApplication` for `Window::belongToSameApplication`, neither of which is in the
source.  The result is the filter after the call and the returned flag. -/
def pointerEvent (findToplevel : QPoint → Option Toplevel)
    (belongToSameApplication : WindowPtr → WindowPtr → Bool)
    (f : PopupInputFilter) (eventType : MouseEventType) (globalPos : QPoint) :
    PopupInputFilter × Bool :=
  match f.m_popupWindows.getLast? with
  | none => (f, false)
  | some last =>
      if eventType = MouseEventType.MouseButtonPress then
        match findToplevel globalPos with
        | none => (f.cancelPopups, true)
        | some pointerFocus =>
            if !belongToSameApplication pointerFocus.window last then
              (f.cancelPopups, true)
            else if pointerFocus.isDecorated then
              let clientRect :=
                (QRect.fromPointSize pointerFocus.clientPos pointerFocus.clientSize).translated
                  pointerFocus.pos
              if !clientRect.contains globalPos then
                (f.cancelPopups, true)
              else
                (f, false)
            else
              (f, false)
      else
        (f, false)

end PopupInputFilter

/-- The calls that change the list of tracked popups. -/
inductive PopupCall where
  | handleWindowAdded (window : WindowPtr) (hasPopupGrab : Bool)
  | handleWindowRemoved (window : WindowPtr)
  | cancelPopups
  deriving DecidableEq, Repr

namespace PopupInputFilter

/-- One call on the filter. -/
def perform (f : PopupInputFilter) : PopupCall → PopupInputFilter
  | PopupCall.handleWindowAdded window hasPopupGrab => f.handleWindowAdded window hasPopupGrab
  | PopupCall.handleWindowRemoved window => f.handleWindowRemoved window
  | PopupCall.cancelPopups => f.cancelPopups

/-- A sequence of calls, oldest first. -/
def performAll (f : PopupInputFilter) (calls : List PopupCall) : PopupInputFilter :=
  calls.foldl perform f

end PopupInputFilter

/-! ## Example states -/

/-- A scheduler with a frame in flight and a repaint pending: a new scheduler after two
`requestRepaint()` calls. -/
def RenderLoop.exampleBusy : RenderLoop :=
  ((RenderLoop.create 60000).requestRepaint).requestRepaint

/-- A new output whose scheduler has a frame in flight and a repaint pending. -/
def VirtualOutput.exampleBusy : VirtualOutput :=
  { (VirtualOutput.create (-1) 60000).1 with m_renderLoop := RenderLoop.exampleBusy }

/-- The calls of the overlapping hold: `refVisible(Minimized)`, `refVisible(Deleting)`,
`unrefVisible(Minimized)`. -/
def WindowItem.overlappingHold : List VisibilityCall :=
  [VisibilityCall.refVisible Reason.minimized, VisibilityCall.refVisible Reason.deleting,
   VisibilityCall.unrefVisible Reason.minimized]

/-- The overlapping hold followed by `unrefVisible(Deleting)`. -/
def WindowItem.overlappingHoldReleased : List VisibilityCall :=
  WindowItem.overlappingHold ++ [VisibilityCall.unrefVisible Reason.deleting]

/-- A configuration module outside Plasma: the form's slider as `QSlider` constructs it
(range 0 to 99, value 0), the stored factor 2. -/
def KWinCompositingKCM.exampleModule : KWinCompositingKCM :=
  KWinCompositingKCM.create { minimum := 0, maximum := 99, value := 0 }
    { animationDurationFactor := 2, config := 2, defaultAnimationDurationFactorValue := 1 }
    false

/-- A filter tracking two popups, the window 1 added before the window 2. -/
def PopupInputFilter.exampleFilter : PopupInputFilter :=
  PopupInputFilter.create.performAll
    [PopupCall.handleWindowAdded 1 true, PopupCall.handleWindowAdded 2 true]

/-- A decorated toplevel at (100, 100) whose 200x100 client area starts 4 to the right of
and 30 below its position: the client rectangle spans (104, 130) to (303, 229). -/
def PopupInputFilter.exampleToplevel : Toplevel :=
  { window := 7
    isDecorated := true
    clientPos := { x := 4, y := 30 }
    clientSize := { width := 200, height := 100 }
    pos := { x := 100, y := 100 } }

/-! ## Arithmetic of the `int` type -/

theorem wrapInt32_extent (x w : Int) (h : isInt32 w) :
    wrapInt32 (wrapInt32 (x + w - 1) - x + 1) = w := by
  unfold isInt32 at h
  unfold wrapInt32
  omega

theorem QRect.size_fromPointSize (p : QPoint) (s : QSize) (hs : s.isValue) :
    (QRect.fromPointSize p s).size = s := by
  obtain ⟨hw, hh⟩ := hs
  cases s
  simp only [QRect.fromPointSize, QRect.size] at *
  rw [wrapInt32_extent _ _ hw, wrapInt32_extent _ _ hh]

theorem QRect.topLeft_fromPointSize (p : QPoint) (s : QSize) :
    (QRect.fromPointSize p s).topLeft = p := by
  cases p
  rfl

/-! ## VirtualOutput: helper lemmas -/

theorem RenderLoopPrivate.notifyFrameCompleted_calls (rl : RenderLoop) (t : Int) :
    (RenderLoopPrivate.notifyFrameCompleted rl t).frameCompletedCalls
      = rl.frameCompletedCalls ++ [t] := by
  simp only [RenderLoopPrivate.notifyFrameCompleted, RenderLoop.requestRepaint]
  split_ifs <;> rfl

theorem VirtualOutput.perform_slots {β : Type}
    (enableOutput : β → VirtualOutput → Bool → β × VirtualOutput)
    (hwiring : ∀ (b : β) (o : VirtualOutput) (e : Bool),
      (enableOutput b o e).2.m_vsyncMonitor.vblankOccurredSlots
        = o.m_vsyncMonitor.vblankOccurredSlots)
    (w : β × VirtualOutput) (call : VirtualOutput.OutputCall)
    (h : w.2.m_vsyncMonitor.vblankOccurredSlots = [Slot.virtualOutputVblank]) :
    (VirtualOutput.perform enableOutput w call).2.m_vsyncMonitor.vblankOccurredSlots
      = [Slot.virtualOutputVblank] := by
  obtain ⟨backend, o⟩ := w
  cases call with
  | init p s => exact h
  | setGeometry geo => exact h
  | updateEnablement enable =>
    simp only [VirtualOutput.perform, VirtualOutput.updateEnablement]
    rw [hwiring backend o enable]
    exact h
  | vblankOccurred t =>
    simp only [VirtualOutput.perform, VirtualOutput.emitVblankOccurred] at h ⊢
    rw [h]
    exact h

theorem VirtualOutput.performAll_slots {β : Type}
    (enableOutput : β → VirtualOutput → Bool → β × VirtualOutput)
    (hwiring : ∀ (b : β) (o : VirtualOutput) (e : Bool),
      (enableOutput b o e).2.m_vsyncMonitor.vblankOccurredSlots
        = o.m_vsyncMonitor.vblankOccurredSlots)
    (w : β × VirtualOutput) (calls : List VirtualOutput.OutputCall)
    (h : w.2.m_vsyncMonitor.vblankOccurredSlots = [Slot.virtualOutputVblank]) :
    (VirtualOutput.performAll enableOutput w calls).2.m_vsyncMonitor.vblankOccurredSlots
      = [Slot.virtualOutputVblank] := by
  induction calls generalizing w with
  | nil => exact h
  | cons call rest ih =>
    exact ih (VirtualOutput.perform enableOutput w call)
      (VirtualOutput.perform_slots enableOutput hwiring w call h)

/-- C2: for every output, position and pixel size, after `init(position, pixelSize)` the
render loop's refresh rate and the vsync monitor's refresh rate are both 60000 mHz, hence
equal, and the current mode's refresh rate is that same value. -/
theorem VirtualOutput.init_refreshRate (o : VirtualOutput) (logicalPosition : QPoint)
    (pixelSize : QSize) :
    (o.init logicalPosition pixelSize).renderLoop.refreshRate = 60000
    ∧ (o.init logicalPosition pixelSize).vsyncMonitor.refreshRate = 60000
    ∧ (o.init logicalPosition pixelSize).renderLoop.refreshRate
        = (o.init logicalPosition pixelSize).vsyncMonitor.refreshRate
    ∧ (o.init logicalPosition pixelSize).currentMode.map OutputMode.refreshRate
        = some 60000 := by
  refine ⟨rfl, rfl, rfl, rfl⟩

/-- C3: for every output and rectangle, `setGeometry(geo)` leaves the render loop and the
vsync monitor untouched: `renderLoop()` and `vsyncMonitor()` return what they returned
before the call, so that the refresh rates, the in-flight and pending state and the
connections of the monitor's signal are unchanged. -/
theorem VirtualOutput.setGeometry_keeps_renderLoop_and_vsyncMonitor (o : VirtualOutput)
    (geo : QRect) :
    (o.setGeometry geo).renderLoop = o.renderLoop
    ∧ (o.setGeometry geo).vsyncMonitor = o.vsyncMonitor
    ∧ (o.setGeometry geo).renderLoop.refreshRate = o.renderLoop.refreshRate
    ∧ (o.setGeometry geo).vsyncMonitor.refreshRate = o.vsyncMonitor.refreshRate
    ∧ (o.setGeometry geo).renderLoop.inFlightFrame = o.renderLoop.inFlightFrame
    ∧ (o.setGeometry geo).renderLoop.pendingRepaintRequested
        = o.renderLoop.pendingRepaintRequested := by
  refine ⟨rfl, rfl, rfl, rfl, rfl, rfl⟩

/-- C4: for every output and rectangle, after `setGeometry(geo)` the output has exactly one
mode, that mode is the current mode, its size is `geo.size()`, its refresh rate is the
vsync monitor's refresh rate from before the call, and the position is `geo.topLeft()`. -/
theorem VirtualOutput.setGeometry_single_mode (o : VirtualOutput) (geo : QRect) :
    (o.setGeometry geo).modes
        = [{ size := geo.size, refreshRate := o.vsyncMonitor.refreshRate }]
    ∧ (o.setGeometry geo).modes.length = 1
    ∧ (o.setGeometry geo).currentMode
        = some { size := geo.size, refreshRate := o.vsyncMonitor.refreshRate }
    ∧ (o.setGeometry geo).currentMode = (o.setGeometry geo).modes.head?
    ∧ (o.setGeometry geo).position = geo.topLeft := by
  refine ⟨rfl, rfl, rfl, rfl, rfl⟩

/-- C5: for every output, every position `p` and every pixel size `s` (a `QSize`, of `int`
width and height), after `init(p, s)` the geometry is the rectangle with top-left `p` and size
`s`, and the single mode, which is the current one, has size `s` and refresh rate
60000 mHz. -/
theorem VirtualOutput.init_geometry (o : VirtualOutput) (p : QPoint) (s : QSize)
    (hs : s.isValue) :
    (o.init p s).geometry = QRect.fromPointSize p s
    ∧ (o.init p s).geometry.topLeft = p
    ∧ (o.init p s).geometry.size = s
    ∧ (o.init p s).modes = [{ size := s, refreshRate := 60000 }]
    ∧ (o.init p s).currentMode = some { size := s, refreshRate := 60000 } := by
  have hsize := QRect.size_fromPointSize p s hs
  have htl := QRect.topLeft_fromPointSize p s
  have hgeo : (o.init p s).geometry = QRect.fromPointSize p s := by
    simp only [VirtualOutput.init, VirtualOutput.setGeometry, VirtualOutput.geometry,
      VirtualOutput.setModesInternal, VirtualOutput.moveTo]
    rw [hsize, htl]
  have hmode : (o.init p s).currentMode = some { size := s, refreshRate := 60000 } := by
    simp only [VirtualOutput.init, VirtualOutput.setGeometry,
      VirtualOutput.setModesInternal, VirtualOutput.moveTo]
    rw [hsize]
    rfl
  have hmodes : (o.init p s).modes = [{ size := s, refreshRate := 60000 }] := by
    simp only [VirtualOutput.init, VirtualOutput.setGeometry,
      VirtualOutput.setModesInternal, VirtualOutput.moveTo]
    rw [hsize]
    rfl
  refine ⟨hgeo, ?_, ?_, hmodes, hmode⟩
  · rw [hgeo, htl]
  · rw [hgeo, hsize]

/-- C5 at the second output of the activation test: `init((1280, 0), 1280x1024)` on a new
output gives the geometry `QRect(1280, 0, 1280, 1024)` and a 1280x1024 mode at 60000 mHz. -/
theorem VirtualOutput.init_geometry_witness :
    ((VirtualOutput.create 0 60000).1.init ⟨1280, 0⟩ ⟨1280, 1024⟩).geometry
        = QRect.fromXYWH 1280 0 1280 1024
    ∧ ((VirtualOutput.create 0 60000).1.init ⟨1280, 0⟩ ⟨1280, 1024⟩).currentMode
        = some { size := ⟨1280, 1024⟩, refreshRate := 60000 } :=
  ⟨(VirtualOutput.init_geometry (VirtualOutput.create 0 60000).1 ⟨1280, 0⟩ ⟨1280, 1024⟩
      (by decide)).1,
    (VirtualOutput.init_geometry (VirtualOutput.create 0 60000).1 ⟨1280, 0⟩ ⟨1280, 1024⟩
      (by decide)).2.2.2.2⟩

/-- C6: the constructor connects the vsync monitor's `vblankOccurred` to `vblank` once, and
no member function changes that connection.  So for an output constructed at any value of
the identifier counter, after any sequence of `init`, `setGeometry`, `updateEnablement`
calls and earlier ticks, at any backend whose `enableOutput` leaves the connection as it
is, one `vblankOccurred(t)` is one `vblank(t)` call, which makes exactly one
`notifyFrameCompleted` call on the output's render loop, with the timestamp `t` itself, and
touches nothing else of the output. -/
theorem VirtualOutput.vblankOccurred_notifies_once {β : Type}
    (enableOutput : β → VirtualOutput → Bool → β × VirtualOutput) (backend : β)
    (identifier defaultRefreshRate : Int) (calls : List VirtualOutput.OutputCall)
    (t : Int)
    (hwiring : ∀ (b : β) (o : VirtualOutput) (e : Bool),
      (enableOutput b o e).2.m_vsyncMonitor.vblankOccurredSlots
        = o.m_vsyncMonitor.vblankOccurredSlots) :
    ((VirtualOutput.performAll enableOutput
        (backend, (VirtualOutput.create identifier defaultRefreshRate).1)
        calls).2.emitVblankOccurred t)
      = { (VirtualOutput.performAll enableOutput
            (backend, (VirtualOutput.create identifier defaultRefreshRate).1) calls).2 with
          m_renderLoop := RenderLoopPrivate.notifyFrameCompleted
            (VirtualOutput.performAll enableOutput
              (backend, (VirtualOutput.create identifier defaultRefreshRate).1)
              calls).2.m_renderLoop t }
    ∧ ((VirtualOutput.performAll enableOutput
        (backend, (VirtualOutput.create identifier defaultRefreshRate).1)
        calls).2.emitVblankOccurred t).renderLoop.frameCompletedCalls
      = (VirtualOutput.performAll enableOutput
          (backend, (VirtualOutput.create identifier defaultRefreshRate).1)
          calls).2.renderLoop.frameCompletedCalls ++ [t] := by
  have hslots := VirtualOutput.performAll_slots enableOutput hwiring
    (backend, (VirtualOutput.create identifier defaultRefreshRate).1) calls rfl
  generalize (VirtualOutput.performAll enableOutput
    (backend, (VirtualOutput.create identifier defaultRefreshRate).1) calls).2 = o at hslots ⊢
  have hemit : o.emitVblankOccurred t = o.vblank t := by
    simp only [VirtualOutput.emitVblankOccurred]
    rw [hslots]
    rfl
  rw [hemit]
  refine ⟨rfl, ?_⟩
  exact RenderLoopPrivate.notifyFrameCompleted_calls o.m_renderLoop t

/-- C6 at the backend modelled from the spec, which leaves the connection as it is: on a
new output, initialised at 1280x1024 and enabled, `vblankOccurred(16 ms)` makes the one call
`notifyFrameCompleted(16 ms)`. -/
theorem VirtualOutput.vblankOccurred_notifies_once_witness :
    ((VirtualOutput.performAll VirtualBackend.enableOutput
        ((), (VirtualOutput.create (-1) 60000).1)
        [VirtualOutput.OutputCall.init ⟨0, 0⟩ ⟨1280, 1024⟩,
         VirtualOutput.OutputCall.updateEnablement true]).2.emitVblankOccurred
        16000000).renderLoop.frameCompletedCalls = [16000000] :=
  (VirtualOutput.vblankOccurred_notifies_once VirtualBackend.enableOutput () (-1) 60000
    [VirtualOutput.OutputCall.init ⟨0, 0⟩ ⟨1280, 1024⟩,
     VirtualOutput.OutputCall.updateEnablement true]
    16000000 (fun _ _ e => by cases e <;> rfl)).2

/-! ## RenderLoop: helper lemmas -/

theorem RenderLoop.balanced_requestRepaint (rl : RenderLoop) (h : rl.Balanced) :
    rl.requestRepaint.Balanced := by
  obtain ⟨rate, pend, fl, last, inh, arm, ret, calls⟩ := rl
  simp only [RenderLoop.Balanced, RenderLoop.requestRepaint] at h ⊢
  cases fl
  · by_cases hi : 0 < inh
    · simpa [hi] using h
    · simp only [hi, if_false] at h ⊢
      simp at h ⊢
      omega
  · simpa using h

theorem RenderLoop.balanced_notifyFrameCompleted (rl : RenderLoop) (t : Int)
    (h : rl.Balanced) : (RenderLoopPrivate.notifyFrameCompleted rl t).Balanced := by
  obtain ⟨rate, pend, fl, last, inh, arm, ret, calls⟩ := rl
  simp only [RenderLoop.Balanced, RenderLoopPrivate.notifyFrameCompleted,
    RenderLoop.requestRepaint] at h ⊢
  by_cases ht : t ≤ last
  · simpa [ht] using h
  · by_cases hi : 0 < inh <;> cases fl <;> cases pend <;> simp [ht, hi] at h ⊢ <;> omega

theorem RenderLoop.balanced_uninhibit (rl : RenderLoop) (h : rl.Balanced) :
    rl.uninhibit.Balanced := by
  obtain ⟨rate, pend, fl, last, inh, arm, ret, calls⟩ := rl
  simp only [RenderLoop.Balanced, RenderLoop.uninhibit, RenderLoop.requestRepaint] at h ⊢
  by_cases hi : inh = 0
  · simpa [hi] using h
  · by_cases hi1 : inh - 1 = 0 <;> cases fl <;> cases pend <;> simp [hi, hi1] at h ⊢ <;> omega

theorem RenderLoop.balanced_reset (rl : RenderLoop) (h : rl.Balanced) :
    rl.reset.Balanced := by
  obtain ⟨rate, pend, fl, last, inh, arm, ret, calls⟩ := rl
  simp only [RenderLoop.Balanced, RenderLoop.reset] at h ⊢
  cases fl <;> simp at h ⊢ <;> omega

theorem RenderLoop.balanced_perform (rl : RenderLoop) (call : RenderLoopCall)
    (h : rl.Balanced) : (rl.perform call).Balanced := by
  cases call with
  | requestRepaint => exact RenderLoop.balanced_requestRepaint rl h
  | notifyFrameCompleted t => exact RenderLoop.balanced_notifyFrameCompleted rl t h
  | setRefreshRate r => exact h
  | inhibit => exact h
  | uninhibit => exact RenderLoop.balanced_uninhibit rl h
  | reset => exact RenderLoop.balanced_reset rl h

theorem RenderLoop.balanced_performAll (rl : RenderLoop) (calls : List RenderLoopCall)
    (h : rl.Balanced) : (rl.performAll calls).Balanced := by
  induction calls generalizing rl with
  | nil => exact h
  | cons call rest ih => exact ih (rl.perform call) (RenderLoop.balanced_perform rl call h)

theorem RenderLoop.balanced_of_reachable (rl : RenderLoop) (h : rl.Reachable) :
    rl.Balanced := by
  obtain ⟨rate, calls, rfl⟩ := h
  apply RenderLoop.balanced_performAll
  simp [RenderLoop.Balanced, RenderLoop.create]

theorem RenderLoop.repeatCall_succ (rl : RenderLoop) (call : RenderLoopCall) (n : Nat) :
    rl.repeatCall call (n + 1) = (rl.perform call).repeatCall call n := by
  simp [RenderLoop.repeatCall, RenderLoop.performAll, List.replicate_succ]

theorem RenderLoop.repeat_requestRepaint_inFlight (rl : RenderLoop) (n : Nat)
    (hfl : rl.inFlightFrame = true) (hn : 1 ≤ n) :
    rl.repeatCall RenderLoopCall.requestRepaint n
      = { rl with pendingRepaintRequested := true } := by
  induction n generalizing rl with
  | zero => omega
  | succ k ih =>
    have hstep : rl.perform RenderLoopCall.requestRepaint
        = { rl with pendingRepaintRequested := true } := by
      simp [RenderLoop.perform, RenderLoop.requestRepaint, hfl]
    rw [RenderLoop.repeatCall_succ, hstep]
    rcases Nat.eq_zero_or_pos k with hk | hk
    · subst hk
      rfl
    · exact ih { rl with pendingRepaintRequested := true } hfl hk

theorem RenderLoop.repeat_uninhibit_pending (rl : RenderLoop) (j : Nat)
    (hk : rl.inhibitionCount = j + 1) (hfl : rl.inFlightFrame = false)
    (hp : rl.pendingRepaintRequested = true) :
    rl.repeatCall RenderLoopCall.uninhibit (j + 1)
      = { rl with
          inhibitionCount := 0
          pendingRepaintRequested := false
          inFlightFrame := true
          armCount := rl.armCount + 1 } := by
  induction j generalizing rl with
  | zero =>
    obtain ⟨rate, pend, fl, last, inh, arm, ret, calls⟩ := rl
    simp only at hk hfl hp
    subst hk hfl hp
    simp [RenderLoop.repeatCall, RenderLoop.performAll, RenderLoop.perform,
      RenderLoop.uninhibit, RenderLoop.requestRepaint]
  | succ i ih =>
    have hstep : rl.perform RenderLoopCall.uninhibit
        = { rl with inhibitionCount := i + 1 } := by
      obtain ⟨rate, pend, fl, last, inh, arm, ret, calls⟩ := rl
      simp only at hk hfl hp
      subst hk hfl hp
      simp [RenderLoop.perform, RenderLoop.uninhibit]
    rw [RenderLoop.repeatCall_succ, hstep]
    exact ih { rl with inhibitionCount := i + 1 } rfl hfl hp

theorem RenderLoop.afterBurst_inFlight (rl : RenderLoop) (n : Nat) (t : Int)
    (hfl : rl.inFlightFrame = true) (hn : 1 ≤ n) (ht : rl.lastPresentationTimestamp < t) :
    rl.afterBurst n t
      = if 0 < rl.inhibitionCount then
          { rl with
            pendingRepaintRequested := true
            inFlightFrame := false
            lastPresentationTimestamp := t
            retiredCount := rl.retiredCount + 1
            frameCompletedCalls := rl.frameCompletedCalls ++ [t] }
        else
          { rl with
            pendingRepaintRequested := false
            inFlightFrame := true
            lastPresentationTimestamp := t
            armCount := rl.armCount + 1
            retiredCount := rl.retiredCount + 1
            frameCompletedCalls := rl.frameCompletedCalls ++ [t] } := by
  unfold RenderLoop.afterBurst
  rw [RenderLoop.repeat_requestRepaint_inFlight rl n hfl hn]
  obtain ⟨rate, pend, fl, last, inh, arm, ret, calls⟩ := rl
  simp only at hfl ht
  subst hfl
  have hnot : ¬ t ≤ last := by omega
  by_cases hi : 0 < inh
  · simp [RenderLoopPrivate.notifyFrameCompleted, RenderLoop.requestRepaint, hnot, hi]
  · simp [RenderLoopPrivate.notifyFrameCompleted, RenderLoop.requestRepaint, hnot, hi]

theorem RenderLoop.afterBurstResumed_inFlight (rl : RenderLoop) (n : Nat) (t : Int)
    (hfl : rl.inFlightFrame = true) (hn : 1 ≤ n) (ht : rl.lastPresentationTimestamp < t) :
    rl.afterBurstResumed n t
      = { rl with
          pendingRepaintRequested := false
          inFlightFrame := true
          lastPresentationTimestamp := t
          inhibitionCount := 0
          armCount := rl.armCount + 1
          retiredCount := rl.retiredCount + 1
          frameCompletedCalls := rl.frameCompletedCalls ++ [t] } := by
  unfold RenderLoop.afterBurstResumed
  rw [RenderLoop.afterBurst_inFlight rl n t hfl hn ht]
  rcases Nat.eq_zero_or_pos rl.inhibitionCount with h0 | hpos
  · have hnot : ¬ 0 < rl.inhibitionCount := by omega
    simp only [hnot, if_false, h0]
    obtain ⟨rate, pend, fl, last, inh, arm, ret, calls⟩ := rl
    simp only at h0
    subst h0
    rfl
  · simp only [hpos, if_true]
    obtain ⟨j, hj⟩ : ∃ j, rl.inhibitionCount = j + 1 := ⟨rl.inhibitionCount - 1, by omega⟩
    obtain ⟨rate, pend, fl, last, inh, arm, ret, calls⟩ := rl
    simp only at hj
    subst hj
    exact RenderLoop.repeat_uninhibit_pending _ j rfl rfl rfl

/-! ## RenderLoop: the claims -/

/-- C7: `notifyFrameCompleted(timestamp)` rejects a sample that is not later than the last
presentation: for every output, hence every scheduler state, and every
`timestamp ≤ lastPresentationTimestamp`, a tick arriving through `VirtualOutput::vblank`
leaves `inFlightFrame`, `pendingRepaintRequested`, `lastPresentationTimestamp`, the refresh
rate and interval, `inhibitionCount` and the frame records unchanged; the only trace of the
call is its entry in the record of calls, and the rest of the output is untouched. -/
theorem VirtualOutput.vblank_rejects_stale_timestamp (o : VirtualOutput) (t : Int)
    (h : t ≤ o.renderLoop.lastPresentationTimestamp) :
    (o.vblank t).renderLoop.inFlightFrame = o.renderLoop.inFlightFrame
    ∧ (o.vblank t).renderLoop.pendingRepaintRequested = o.renderLoop.pendingRepaintRequested
    ∧ (o.vblank t).renderLoop.lastPresentationTimestamp
        = o.renderLoop.lastPresentationTimestamp
    ∧ (o.vblank t).renderLoop.refreshInterval = o.renderLoop.refreshInterval
    ∧ (o.vblank t).renderLoop.refreshRate = o.renderLoop.refreshRate
    ∧ (o.vblank t).renderLoop.inhibitionCount = o.renderLoop.inhibitionCount
    ∧ (o.vblank t).renderLoop.armCount = o.renderLoop.armCount
    ∧ (o.vblank t).renderLoop.retiredCount = o.renderLoop.retiredCount
    ∧ RenderLoopPrivate.notifyFrameCompleted o.renderLoop t
        = { o.renderLoop with
            frameCompletedCalls := o.renderLoop.frameCompletedCalls ++ [t] }
    ∧ o.vblank t
        = { o with
            m_renderLoop :=
              { o.m_renderLoop with
                frameCompletedCalls := o.m_renderLoop.frameCompletedCalls ++ [t] } } := by
  have hcall : RenderLoopPrivate.notifyFrameCompleted o.m_renderLoop t
      = { o.m_renderLoop with
          frameCompletedCalls := o.m_renderLoop.frameCompletedCalls ++ [t] } := by
    simp only [VirtualOutput.renderLoop] at h
    simp [RenderLoopPrivate.notifyFrameCompleted, h]
  have hout : o.vblank t
      = { o with
          m_renderLoop :=
            { o.m_renderLoop with
              frameCompletedCalls := o.m_renderLoop.frameCompletedCalls ++ [t] } } := by
    simp only [VirtualOutput.vblank]
    rw [hcall]
  refine ⟨?_, ?_, ?_, ?_, ?_, ?_, ?_, ?_, hcall, hout⟩ <;> rw [hout] <;> rfl

/-- C7 at a scheduler with a frame in flight and a repaint pending, whose last presentation
is at 0: a tick with timestamp 0 leaves the frame in flight and the repaint pending. -/
theorem VirtualOutput.vblank_rejects_stale_timestamp_witness :
    (VirtualOutput.exampleBusy.vblank 0).renderLoop.inFlightFrame = true
    ∧ (VirtualOutput.exampleBusy.vblank 0).renderLoop.pendingRepaintRequested = true
    ∧ (VirtualOutput.exampleBusy.vblank 0).renderLoop.lastPresentationTimestamp = 0 :=
  ⟨(VirtualOutput.vblank_rejects_stale_timestamp VirtualOutput.exampleBusy 0
      (by decide)).1,
    (VirtualOutput.vblank_rejects_stale_timestamp VirtualOutput.exampleBusy 0
      (by decide)).2.1,
    (VirtualOutput.vblank_rejects_stale_timestamp VirtualOutput.exampleBusy 0
      (by decide)).2.2.1⟩

/-- C8: backpressure.  In every scheduler state reachable from a new scheduler at most one
frame is in flight (the frames armed exceed the frames retired by one exactly while
`inFlightFrame` holds, and by none otherwise).  And for every `n ≥ 1`, `n`
`requestRepaint()` calls made while a frame is in flight only set
`pendingRepaintRequested`; when the in-flight frame then completes at a later timestamp
`t`, exactly one further paint is scheduled: at the completion itself when the scheduler is
not inhibited, and, when it is, at the `uninhibit()` that releases the last inhibition,
the request staying pending until then.  That paint is the only one: its own completion at
`t2 > t` schedules nothing and leaves the scheduler idle. -/
theorem RenderLoop.backpressure (rl : RenderLoop) (n : Nat) (t t2 : Int)
    (hfl : rl.inFlightFrame = true) (hn : 1 ≤ n)
    (ht : rl.lastPresentationTimestamp < t) (ht2 : t < t2) :
    (∀ r : RenderLoop, r.Reachable →
        r.framesInFlight ≤ 1 ∧ (r.framesInFlight = 1 ↔ r.inFlightFrame = true))
    ∧ rl.repeatCall RenderLoopCall.requestRepaint n
        = { rl with pendingRepaintRequested := true }
    ∧ (rl.inhibitionCount = 0 → (rl.afterBurst n t).armCount = rl.armCount + 1)
    ∧ (0 < rl.inhibitionCount →
        (rl.afterBurst n t).armCount = rl.armCount
        ∧ (rl.afterBurst n t).inFlightFrame = false
        ∧ (rl.afterBurst n t).pendingRepaintRequested = true)
    ∧ (rl.afterBurstResumed n t).armCount = rl.armCount + 1
    ∧ (rl.afterBurstResumed n t).inFlightFrame = true
    ∧ (rl.afterBurstResumed n t).pendingRepaintRequested = false
    ∧ (RenderLoopPrivate.notifyFrameCompleted (rl.afterBurstResumed n t) t2).armCount
        = rl.armCount + 1
    ∧ (RenderLoopPrivate.notifyFrameCompleted (rl.afterBurstResumed n t) t2).inFlightFrame
        = false
    ∧ (RenderLoopPrivate.notifyFrameCompleted
        (rl.afterBurstResumed n t) t2).pendingRepaintRequested = false := by
  have hburst := RenderLoop.afterBurst_inFlight rl n t hfl hn ht
  have hres := RenderLoop.afterBurstResumed_inFlight rl n t hfl hn ht
  have hnot : ¬ t2 ≤ t := by omega
  refine ⟨?_, RenderLoop.repeat_requestRepaint_inFlight rl n hfl hn, ?_, ?_, ?_, ?_, ?_,
    ?_, ?_, ?_⟩
  · intro r hr
    have hb := RenderLoop.balanced_of_reachable r hr
    unfold RenderLoop.Balanced at hb
    unfold RenderLoop.framesInFlight
    cases hf : r.inFlightFrame <;> simp [hf] at hb ⊢ <;> omega
  · intro h0
    have hn0 : ¬ 0 < rl.inhibitionCount := by omega
    rw [hburst]
    simp [hn0]
  · intro hpos
    rw [hburst]
    simp [hpos]
  · rw [hres]
  · rw [hres]
  · rw [hres]
  · rw [hres]
    simp [RenderLoopPrivate.notifyFrameCompleted, hnot]
  · rw [hres]
    simp [RenderLoopPrivate.notifyFrameCompleted, hnot]
  · rw [hres]
    simp [RenderLoopPrivate.notifyFrameCompleted, hnot]

/-- C8 at a new scheduler with one frame in flight: three further `requestRepaint()` calls
and the completion at 16 ms leave exactly two paints scheduled in all, the first one and
one further; the completion of that one at 33 ms schedules nothing more. -/
theorem RenderLoop.backpressure_witness :
    ((RenderLoop.create 60000).requestRepaint.afterBurst 3 16000000).armCount = 2
    ∧ (RenderLoopPrivate.notifyFrameCompleted
        ((RenderLoop.create 60000).requestRepaint.afterBurstResumed 3 16000000)
        33000000).armCount = 2 :=
  ⟨(RenderLoop.backpressure (RenderLoop.create 60000).requestRepaint 3 16000000 33000000
      (by decide) (by decide) (by decide) (by decide)).2.2.1 (by decide),
    (RenderLoop.backpressure (RenderLoop.create 60000).requestRepaint 3 16000000 33000000
      (by decide) (by decide) (by decide) (by decide)).2.2.2.2.2.2.2.1⟩

/-! ## WindowItem: helper lemmas -/

theorem WindowItem.all_forced_visible (ancestorsVisible : List Bool) :
    (ancestorsVisible.map (fun _ => true)).all id = true := by
  induction ancestorsVisible with
  | nil => rfl
  | cons a rest ih => simp

/-- C10: overlapping visibility holds.  Starting from an item with all counters 0 and
visible ancestors, after `refVisible(Minimized)`; `refVisible(Deleting)`;
`unrefVisible(Minimized)` the item is visible; and after a subsequent
`unrefVisible(Deleting)` the item, which but for its holds is hidden (explicitly hidden, as
a minimized window in its close animation is), is not visible.  In general the visibility
after the last release is that of an item without holds, `!explicitHidden`. -/
theorem WindowItem.overlapping_holds (w : WindowItem)
    (hcounts : w.counts = [0, 0, 0, 0, 0])
    (hancestors : w.ancestorsVisible.all id = true) :
    (w.performAll WindowItem.overlappingHold).visible = true
    ∧ (w.performAll WindowItem.overlappingHoldReleased).visible = !w.explicitHidden
    ∧ (w.explicitHidden = true →
        (w.performAll WindowItem.overlappingHoldReleased).visible = false) := by
  obtain ⟨c1, c2, c3, c4, c5, hidden, ancestors, vis⟩ := w
  simp only [WindowItem.counts, List.cons.injEq, and_true] at hcounts
  obtain ⟨h1, h2, h3, h4, h5⟩ := hcounts
  subst h1 h2 h3 h4 h5
  simp only at hancestors
  have hforced := WindowItem.all_forced_visible ancestors
  have hmain : (WindowItem.performAll
        { m_forceVisibleByHiddenCount := 0, m_forceVisibleByDeleteCount := 0,
          m_forceVisibleByDesktopCount := 0, m_forceVisibleByMinimizeCount := 0,
          m_forceVisibleByActivityCount := 0, explicitHidden := hidden,
          ancestorsVisible := ancestors, visible := vis }
        WindowItem.overlappingHold).visible = true
      ∧ (WindowItem.performAll
        { m_forceVisibleByHiddenCount := 0, m_forceVisibleByDeleteCount := 0,
          m_forceVisibleByDesktopCount := 0, m_forceVisibleByMinimizeCount := 0,
          m_forceVisibleByActivityCount := 0, explicitHidden := hidden,
          ancestorsVisible := ancestors, visible := vis }
        WindowItem.overlappingHoldReleased).visible = !hidden := by
    have hone : wrapInt32 1 = 1 := by decide
    simp [WindowItem.performAll, WindowItem.overlappingHoldReleased,
      WindowItem.overlappingHold, WindowItem.perform, WindowItem.refVisible,
      WindowItem.unrefVisible, WindowItem.updateVisibility, WindowItem.computeVisibility,
      WindowItem.setCount, WindowItem.count, WindowItem.counts, hancestors, hforced, hone]
  refine ⟨hmain.1, hmain.2, ?_⟩
  intro hh
  simp only at hh
  rw [hmain.2, hh]
  rfl

/-- C10 at an explicitly hidden item below one visible ancestor: visible while the delete
hold lasts, not visible once it is released. -/
theorem WindowItem.overlapping_holds_witness :
    ((WindowItem.create true [true]).performAll WindowItem.overlappingHold).visible = true
    ∧ ((WindowItem.create true [true]).performAll
        WindowItem.overlappingHoldReleased).visible = false :=
  ⟨(WindowItem.overlapping_holds (WindowItem.create true [true]) (by decide)
      (by decide)).1,
    (WindowItem.overlapping_holds (WindowItem.create true [true]) (by decide)
      (by decide)).2.2 (by decide)⟩

/-! ## WindowItem: recomputed visibility and the reason tags -/

theorem WindowItem.computeVisibility_forced (w : WindowItem)
    (h : w.computeVisibility = true) :
    ({ w with ancestorsVisible := w.ancestorsVisible.map (fun _ => true) } :
      WindowItem).computeVisibility = true := by
  have hforced := WindowItem.all_forced_visible w.ancestorsVisible
  simp only [WindowItem.computeVisibility, WindowItem.counts, Bool.and_eq_true] at h ⊢
  exact ⟨h.1, hforced⟩

theorem WindowItem.refVisible_consistent (w : WindowItem) (r : Reason) :
    (w.refVisible r).visible = (w.refVisible r).computeVisibility := by
  unfold WindowItem.refVisible
  by_cases hv : ((w.setCount r (wrapInt32 (w.count r + 1))).updateVisibility).visible = true
  · rw [if_pos hv]
    have hc : (w.setCount r (wrapInt32 (w.count r + 1))).computeVisibility = true := hv
    have := WindowItem.computeVisibility_forced
      ((w.setCount r (wrapInt32 (w.count r + 1))).updateVisibility) hc
    exact hv.trans this.symm
  · rw [if_neg hv]
    rfl

theorem WindowItem.perform_consistent (w : WindowItem) (call : VisibilityCall)
    (h : w.visible = w.computeVisibility) :
    (w.perform call).visible = (w.perform call).computeVisibility := by
  cases call with
  | refVisible r => exact WindowItem.refVisible_consistent w r
  | unrefVisible r =>
    simp only [WindowItem.perform, WindowItem.unrefVisible]
    split_ifs
    · exact h
    · rfl

theorem WindowItem.performAll_consistent (w : WindowItem) (calls : List VisibilityCall)
    (h : w.visible = w.computeVisibility) :
    (w.performAll calls).visible = (w.performAll calls).computeVisibility := by
  induction calls generalizing w with
  | nil => exact h
  | cons call rest ih => exact ih (w.perform call) (WindowItem.perform_consistent w call h)

theorem WindowItem.some_count_positive (w : WindowItem) :
    w.counts.any (fun c => decide (0 < c)) = true ↔ ∃ r, 0 < w.count r := by
  constructor
  · intro h
    simp only [WindowItem.counts, List.any_cons, List.any_nil, Bool.or_false,
      Bool.or_eq_true, decide_eq_true_eq] at h
    rcases h with h | h | h | h | h
    · exact ⟨Reason.hidden, h⟩
    · exact ⟨Reason.deleting, h⟩
    · exact ⟨Reason.onOtherDesktop, h⟩
    · exact ⟨Reason.minimized, h⟩
    · exact ⟨Reason.onOtherActivity, h⟩
  · rintro ⟨r, hr⟩
    simp only [WindowItem.counts, List.any_cons, List.any_nil, Bool.or_false,
      Bool.or_eq_true, decide_eq_true_eq]
    cases r <;> simp only [WindowItem.count] at hr <;> tauto

/-- C11: after every call of every sequence of `refVisible` / `unrefVisible` calls on a new
item the maintained visibility equals `computeVisibility()` recomputed on the current state;
`computeVisibility()` is true exactly when (the item is not explicitly hidden or some
per-reason counter is positive) and all ancestors are visible; it reads neither the
maintained value nor changes the item, so recomputing a second time gives the same result
and the same item. -/
theorem WindowItem.maintained_visibility_is_recomputed (explicitHidden : Bool)
    (ancestorsVisible : List Bool) (calls : List VisibilityCall) (k : Nat) :
    ((WindowItem.create explicitHidden ancestorsVisible).performAll (calls.take k)).visible
      = ((WindowItem.create explicitHidden ancestorsVisible).performAll
          (calls.take k)).computeVisibility
    ∧ (∀ w : WindowItem, w.computeVisibility = true ↔
        ((w.explicitHidden = false ∨ ∃ r, 0 < w.count r)
          ∧ ∀ a ∈ w.ancestorsVisible, a = true))
    ∧ (∀ (w : WindowItem) (b : Bool),
        ({ w with visible := b } : WindowItem).computeVisibility = w.computeVisibility)
    ∧ (∀ w : WindowItem,
        w.updateVisibility.computeVisibility = w.computeVisibility
        ∧ w.updateVisibility.updateVisibility = w.updateVisibility) := by
  refine ⟨?_, ?_, ?_, ?_⟩
  · apply WindowItem.performAll_consistent
    rfl
  · intro w
    have hany := WindowItem.some_count_positive w
    simp only [WindowItem.computeVisibility, Bool.and_eq_true, Bool.or_eq_true,
      Bool.not_eq_true', List.all_eq_true, id_eq]
    rw [hany]
  · intro w b
    rfl
  · intro w
    exact ⟨rfl, rfl⟩

theorem Reason.mask_eq (member : Reason → Bool) :
    Reason.mask member
      = Int.lor (Int.lor (Int.lor (Int.lor
          (if member Reason.hidden then 1 else 0)
          (if member Reason.deleting then 2 else 0))
          (if member Reason.onOtherDesktop then 4 else 0))
          (if member Reason.minimized then 8 else 0))
          (if member Reason.onOtherActivity then 32 else 0) := by
  simp only [Reason.mask, Reason.all, List.foldl_cons, List.foldl_nil, Reason.flag]
  cases member Reason.hidden <;> cases member Reason.deleting <;>
    cases member Reason.onOtherDesktop <;> cases member Reason.minimized <;>
    cases member Reason.onOtherActivity <;> decide

theorem Reason.mask_injective (s t : Reason → Bool) (h : Reason.mask s = Reason.mask t) :
    s = t := by
  rw [Reason.mask_eq, Reason.mask_eq] at h
  have key : ∀ a b c d e a2 b2 c2 d2 e2 : Bool,
      Int.lor (Int.lor (Int.lor (Int.lor
          (if a then 1 else 0) (if b then 2 else 0)) (if c then 4 else 0))
          (if d then 8 else 0)) (if e then 32 else 0)
        = Int.lor (Int.lor (Int.lor (Int.lor
          (if a2 then 1 else 0) (if b2 then 2 else 0)) (if c2 then 4 else 0))
          (if d2 then 8 else 0)) (if e2 then 32 else 0)
      → a = a2 ∧ b = b2 ∧ c = c2 ∧ d = d2 ∧ e = e2 := by
    decide
  obtain ⟨h1, h2, h3, h4, h5⟩ := key _ _ _ _ _ _ _ _ _ _ h
  funext r
  cases r
  · exact h1
  · exact h2
  · exact h3
  · exact h4
  · exact h5

/-- C12: the reason set is the five enumerators `PAINT_DISABLED_BY_HIDDEN`, `_DELETE`,
`_DESKTOP`, `_MINIMIZE`, `_ACTIVITY`, with the values 1, 2, 4, 8 and 32: each a power of two
(a single-bit mask), none zero, no two equal; so the bitwise OR of the enumerators of a set
of reasons determines the set; and `WindowItem` keeps one counter for each tag, five in
all, an assignment to one leaving the other four as they are. -/
theorem Reason.flags_are_distinct_single_bits :
    Reason.all.map Reason.flag = [1, 2, 4, 8, 32]
    ∧ (∀ r : Reason, r ∈ Reason.all)
    ∧ Reason.all.Nodup
    ∧ Reason.all.length = 5
    ∧ (∀ r : Reason, ∃ k : Nat, r.flag = 2 ^ k)
    ∧ (∀ r : Reason, r.flag ≠ 0)
    ∧ (∀ r q : Reason, r.flag = q.flag → r = q)
    ∧ (∀ s t : Reason → Bool, Reason.mask s = Reason.mask t → s = t)
    ∧ (∀ w : WindowItem, w.counts = Reason.all.map w.count ∧ w.counts.length = 5)
    ∧ (∀ (w : WindowItem) (r q : Reason) (v : Int),
        (w.setCount r v).count q = if q = r then v else w.count q) := by
  refine ⟨by decide, ?_, by decide, rfl, ?_, ?_, ?_, Reason.mask_injective, ?_, ?_⟩
  · intro r
    cases r <;> decide
  · intro r
    cases r
    · exact ⟨0, by decide⟩
    · exact ⟨1, by decide⟩
    · exact ⟨2, by decide⟩
    · exact ⟨3, by decide⟩
    · exact ⟨5, by decide⟩
  · intro r
    cases r <;> decide
  · intro r q
    cases r <;> cases q <;> decide
  · intro w
    exact ⟨rfl, rfl⟩
  · intro w r q v
    cases r <;> cases q <;> simp [WindowItem.setCount, WindowItem.count]

/-! ## VirtualOutput: identifiers and names -/

theorem decimalValue_append (xs : List Char) (c : Char) :
    decimalValue (xs ++ [c]) = decimalValue xs * 10 + (c.toNat - 48) := by
  simp [decimalValue, List.foldl_append]

theorem digitChar_value (d : Nat) (h : d < 10) : (Nat.digitChar d).toNat - 48 = d := by
  interval_cases d <;> rfl

theorem toDigitsCore_value (fuel : Nat) : ∀ (n : Nat) (ds : List Char), n < fuel →
    ∃ xs, Nat.toDigitsCore 10 fuel n ds = xs ++ ds ∧ decimalValue xs = n := by
  induction fuel with
  | zero =>
    intro n ds h
    omega
  | succ fuel ih =>
    intro n ds h
    simp only [Nat.toDigitsCore]
    have hmod : n % 10 < 10 := Nat.mod_lt _ (by norm_num)
    have hdigit := digitChar_value (n % 10) hmod
    by_cases h0 : n / 10 = 0
    · simp only [h0, if_true]
      refine ⟨[Nat.digitChar (n % 10)], rfl, ?_⟩
      simp only [decimalValue, List.foldl_cons, List.foldl_nil, zero_mul, zero_add]
      omega
    · simp only [h0, if_false]
      have hlt : n / 10 < fuel := by omega
      obtain ⟨xs, hxs, hval⟩ := ih (n / 10) (Nat.digitChar (n % 10) :: ds) hlt
      refine ⟨xs ++ [Nat.digitChar (n % 10)], ?_, ?_⟩
      · rw [hxs]
        simp
      · rw [decimalValue_append, hval, hdigit]
        omega

theorem decimalValue_repr (n : Nat) : decimalValue (Nat.repr n).data = n := by
  obtain ⟨xs, hxs, hval⟩ := toDigitsCore_value (n + 1) n [] (by omega)
  simp only [Nat.repr, Nat.toDigits, List.asString, hxs, List.append_nil]
  exact hval

theorem VirtualOutput.name_injective (a b : Nat)
    (h : "Virtual-" ++ toString (a : Int) = "Virtual-" ++ toString (b : Int)) : a = b := by
  have h1 : ("Virtual-" ++ toString (a : Int)).data
      = ("Virtual-" ++ toString (b : Int)).data := by
    rw [h]
  simp only [String.data_append] at h1
  have h2 := List.append_cancel_left h1
  have ha : toString (a : Int) = Nat.repr a := rfl
  have hb : toString (b : Int) = Nat.repr b := rfl
  rw [ha, hb] at h2
  have h3 := congrArg decimalValue h2
  rwa [decimalValue_repr, decimalValue_repr] at h3

theorem VirtualOutput.constructAll_get (defaultRefreshRate : Int) (n : Nat) :
    ∀ (identifier : Int) (i : Nat), i < n → -1 ≤ identifier →
      identifier + i + 1 ≤ 2147483647 →
      (VirtualOutput.constructAll identifier defaultRefreshRate n)[i]?
        = some (VirtualOutput.create (identifier + i) defaultRefreshRate).1 := by
  induction n with
  | zero =>
    intro identifier i hi
    omega
  | succ m ih =>
    intro identifier i hi hlow hhigh
    cases i with
    | zero => simp [VirtualOutput.constructAll]
    | succ j =>
      have hnext : (VirtualOutput.create identifier defaultRefreshRate).2 = identifier + 1 := by
        simp only [VirtualOutput.create, wrapInt32]
        omega
      have hindex : identifier + 1 + (j : Int) = identifier + ((j + 1 : Nat) : Int) := by
        push_cast
        omega
      simp only [VirtualOutput.constructAll, List.getElem?_cons_succ]
      rw [hnext, ih (identifier + 1) j (by omega) (by omega)
        (by push_cast at hhigh ⊢; omega), hindex]

theorem VirtualOutput.constructedInProcess_get (defaultRefreshRate : Int) (n k : Nat)
    (hk : 1 ≤ k) (hkn : k ≤ n) (hov : k ≤ 2147483648) :
    ∃ o, (VirtualOutput.constructedInProcess defaultRefreshRate n)[k - 1]? = some o
      ∧ o.m_identifier = ((k - 1 : Nat) : Int)
      ∧ o.information.name = "Virtual-" ++ toString (((k - 1 : Nat) : Int)) := by
  obtain ⟨i, rfl⟩ : ∃ i, k = i + 1 := ⟨k - 1, by omega⟩
  have hget := VirtualOutput.constructAll_get defaultRefreshRate n (-1) i (by omega)
    (by omega) (by omega)
  have hwrap : wrapInt32 (-1 + (i : Int) + 1) = (i : Int) := by
    unfold wrapInt32
    omega
  refine ⟨_, hget, ?_, ?_⟩
  · simp only [VirtualOutput.create, hwrap, Nat.add_sub_cancel]
  · simp only [VirtualOutput.create, hwrap, Nat.add_sub_cancel]

/-- C14: output identifiers come from the process-wide counter of the constructor.  Of the
outputs constructed in a process the `k`-th (`k ≥ 1`, and `k ≤ 2^31`, so that the counter
has not overflowed) has the identifier `k − 1` and the name `"Virtual-"` followed by the
decimal of `k − 1`; and any other output constructed in the process below the overflow, the
`j`-th with `j ≠ k`, has a different identifier and a different name. -/
theorem VirtualOutput.identifiers_count_up (defaultRefreshRate : Int) (n k : Nat)
    (hk : 1 ≤ k) (hkn : k ≤ n) (hov : k ≤ 2147483648) :
    ∃ o, (VirtualOutput.constructedInProcess defaultRefreshRate n)[k - 1]? = some o
      ∧ o.m_identifier = ((k - 1 : Nat) : Int)
      ∧ o.information.name = "Virtual-" ++ Nat.repr (k - 1)
      ∧ ∀ j : Nat, 1 ≤ j → j ≤ n → j ≤ 2147483648 → j ≠ k →
          ∃ o2, (VirtualOutput.constructedInProcess defaultRefreshRate n)[j - 1]? = some o2
            ∧ o2.m_identifier ≠ o.m_identifier
            ∧ o2.information.name ≠ o.information.name := by
  obtain ⟨o, hget, hid, hname⟩ :=
    VirtualOutput.constructedInProcess_get defaultRefreshRate n k hk hkn hov
  refine ⟨o, hget, hid, hname, ?_⟩
  intro j hj hjn hjov hjk
  obtain ⟨o2, hget2, hid2, hname2⟩ :=
    VirtualOutput.constructedInProcess_get defaultRefreshRate n j hj hjn hjov
  refine ⟨o2, hget2, ?_, ?_⟩
  · rw [hid, hid2]
    omega
  · rw [hname, hname2]
    intro heq
    have := VirtualOutput.name_injective (j - 1) (k - 1) heq
    omega

/-- C14 at the two outputs of the activation test: the first is `Virtual-0` with
identifier 0, and the second has another identifier and another name. -/
theorem VirtualOutput.identifiers_count_up_witness :
    ∃ o, (VirtualOutput.constructedInProcess 60000 2)[0]? = some o
      ∧ o.m_identifier = 0
      ∧ o.information.name = "Virtual-0"
      ∧ ∃ o2, (VirtualOutput.constructedInProcess 60000 2)[1]? = some o2
          ∧ o2.m_identifier ≠ o.m_identifier
          ∧ o2.information.name ≠ o.information.name := by
  obtain ⟨o, hget, hid, hname, hothers⟩ :=
    VirtualOutput.identifiers_count_up 60000 2 1 (by decide) (by decide) (by decide)
  exact ⟨o, hget, hid, hname, hothers 2 (by decide) (by decide) (by decide) (by decide)⟩

/-! ## KWinCompositingKCM: the animation speed -/

theorem s_animationMultipliers_length : s_animationMultipliers.length = 8 := rfl

theorem s_animationMultipliers_get :
    s_animationMultipliers[0]? = some 8 ∧ s_animationMultipliers[1]? = some 4
    ∧ s_animationMultipliers[2]? = some 2 ∧ s_animationMultipliers[3]? = some 1
    ∧ s_animationMultipliers[4]? = some (1 / 2) ∧ s_animationMultipliers[5]? = some (1 / 4)
    ∧ s_animationMultipliers[6]? = some (1 / 8) ∧ s_animationMultipliers[7]? = some 0 :=
  ⟨rfl, rfl, rfl, rfl, rfl, rfl, rfl, rfl⟩

theorem loadIndex_tree (v : ℚ) :
    loadIndex v
      = if v < 1 / 2 then
          if v < 1 / 8 then (if v < 0 then 8 else 7) else (if v < 1 / 4 then 6 else 5)
        else
          if v < 2 then (if v < 1 then 4 else 3)
          else (if v < 4 then 2 else (if v < 8 then 1 else 0)) := by
  obtain ⟨h0, h1, h2, h3, h4, h5, h6, h7⟩ := s_animationMultipliers_get
  simp only [loadIndex, lowerBound, s_animationMultipliers_length]
  norm_num [lowerBoundLoop, greater, h0, h1, h2, h3, h4, h5, h6, h7]

theorem loadIndex_multiplier (i : Nat) (hi : i < 8) :
    ∃ m, s_animationMultipliers[i]? = some m ∧ loadIndex m = (i : Int) := by
  obtain ⟨h0, h1, h2, h3, h4, h5, h6, h7⟩ := s_animationMultipliers_get
  interval_cases i
  · exact ⟨_, h0, by rw [loadIndex_tree]; norm_num⟩
  · exact ⟨_, h1, by rw [loadIndex_tree]; norm_num⟩
  · exact ⟨_, h2, by rw [loadIndex_tree]; norm_num⟩
  · exact ⟨_, h3, by rw [loadIndex_tree]; norm_num⟩
  · exact ⟨_, h4, by rw [loadIndex_tree]; norm_num⟩
  · exact ⟨_, h5, by rw [loadIndex_tree]; norm_num⟩
  · exact ⟨_, h6, by rw [loadIndex_tree]; norm_num⟩
  · exact ⟨_, h7, by rw [loadIndex_tree]; norm_num⟩

theorem QSlider.setValue_in_range (s : QSlider) (v : Int) (hmin : s.minimum ≤ v)
    (hmax : v ≤ s.maximum) :
    (s.setValue v).1 = { s with value := v } ∧ ((s.setValue v).2 = true ↔ s.value ≠ v) := by
  have hb : max s.minimum (min s.maximum v) = v := by
    rw [min_eq_right hmax, max_eq_right hmin]
  unfold QSlider.setValue
  simp only [hb]
  by_cases hv : s.value = v
  · simp only [hv, if_true]
    constructor
    · cases s
      simp only at hv
      subst hv
      rfl
    · simp
  · simp [hv]

theorem KWinCompositingKCM.setSliderValue_in_range (k : KWinCompositingKCM) (v : Nat)
    (m : ℚ) (hm : s_animationMultipliers[v]? = some m)
    (hmin : k.animationDurationFactor.minimum ≤ v)
    (hmax : (v : Int) ≤ k.animationDurationFactor.maximum) :
    ∃ k1, k.setSliderValue v = some k1
      ∧ k1.animationDurationFactor = { k.animationDurationFactor with value := v }
      ∧ k1.isRunningPlasma = k.isRunningPlasma
      ∧ k1.m_settings.config = k.m_settings.config
      ∧ (k.animationDurationFactor.value = v → k1 = k)
      ∧ (k.animationDurationFactor.value ≠ v → k1.m_settings.animationDurationFactor = m) := by
  obtain ⟨hs, hchanged⟩ := QSlider.setValue_in_range k.animationDurationFactor v hmin hmax
  unfold KWinCompositingKCM.setSliderValue
  by_cases hv : k.animationDurationFactor.value = v
  · have hflag : (k.animationDurationFactor.setValue v).2 = false := by
      cases hb : (k.animationDurationFactor.setValue v).2
      · rfl
      · exact absurd hv (hchanged.mp hb)
    have hpair : k.animationDurationFactor.setValue v
        = ({ k.animationDurationFactor with value := v }, false) := by
      rw [← hs, ← hflag]
    rw [hpair]
    have hsame : ({ k.animationDurationFactor with value := (v : Int) } : QSlider)
        = k.animationDurationFactor := by
      rw [← hv]
    refine ⟨_, rfl, rfl, rfl, rfl, ?_, ?_⟩
    · intro _
      simp only [hsame]
    · intro hne
      exact absurd hv hne
  · have hflag : (k.animationDurationFactor.setValue v).2 = true := hchanged.mpr hv
    have hpair : k.animationDurationFactor.setValue v
        = ({ k.animationDurationFactor with value := v }, true) := by
      rw [← hs, ← hflag]
    rw [hpair]
    simp only [KWinCompositingKCM.onValueChanged, Int.toNat_ofNat, hm, Int.natCast_nonneg,
      if_true]
    refine ⟨_, rfl, rfl, rfl, rfl, ?_, ?_⟩
    · intro hv2
      exact absurd hv2 hv
    · intro _
      rfl

/-- C15: outside Plasma `defaults()` sets the animation-speed slider to index 3 (for every
module whose slider range holds 3, as it does once `init()` has set the maximum to 7), and
index 3 of `s_animationMultipliers` is the multiplier 1; so `defaults()` followed by
`save()` stores the animation duration factor 1, in memory and in the configuration. -/
theorem KWinCompositingKCM.defaults_then_save_stores_one (k : KWinCompositingKCM)
    (hplasma : k.isRunningPlasma = false)
    (hmin : k.animationDurationFactor.minimum ≤ 3)
    (hmax : 3 ≤ k.animationDurationFactor.maximum) :
    s_animationMultipliers[3]? = some 1
    ∧ ∃ k1 k2, k.defaults = some k1
        ∧ k1.animationDurationFactor.value = 3
        ∧ k1.save = some k2
        ∧ k2.animationDurationFactor.value = 3
        ∧ k2.m_settings.animationDurationFactor = 1
        ∧ k2.m_settings.config = 1 := by
  have h3 : s_animationMultipliers[3]? = some 1 := rfl
  obtain ⟨k1, hset, hslider, hpl, _, _, _⟩ :=
    KWinCompositingKCM.setSliderValue_in_range k 3 1 h3 hmin hmax
  have hdefaults : k.defaults = some k1 := by
    simp only [KWinCompositingKCM.defaults, hplasma]
    exact hset
  have hvalue : k1.animationDurationFactor.value = 3 := by
    rw [hslider]
    rfl
  have hpl1 : k1.isRunningPlasma = false := by
    rw [hpl, hplasma]
  have hsave : k1.save
      = some { k1 with m_settings := (k1.m_settings.setAnimationDurationFactor 1).save } := by
    have hnat : (3 : Int).toNat = 3 := rfl
    simp only [KWinCompositingKCM.save, hpl1, hvalue, hnat, h3]
    simp
  exact ⟨h3, k1, _, hdefaults, hvalue, hsave, hvalue, rfl, rfl⟩

/-- C15 at a module constructed outside Plasma over a slider with `QSlider`'s own range: its
stored factor is 2; after `defaults()` and `save()` exist results, and the maximum set by
`init()` is 7. -/
theorem KWinCompositingKCM.defaults_then_save_stores_one_witness :
    KWinCompositingKCM.exampleModule.animationDurationFactor.maximum = 7
    ∧ ∃ k1 k2, KWinCompositingKCM.exampleModule.defaults = some k1
        ∧ k1.animationDurationFactor.value = 3
        ∧ k1.save = some k2
        ∧ k2.animationDurationFactor.value = 3
        ∧ k2.m_settings.animationDurationFactor = 1
        ∧ k2.m_settings.config = 1 :=
  ⟨by decide,
    (KWinCompositingKCM.defaults_then_save_stores_one KWinCompositingKCM.exampleModule
      (by decide) (by decide) (by decide)).2⟩

theorem KWinCompositingKCM.load_of_config (k : KWinCompositingKCM) (i : Nat) (m : ℚ)
    (hm : s_animationMultipliers[i]? = some m) (hindex : loadIndex m = (i : Int))
    (hconfig : k.m_settings.config = m)
    (hmin : k.animationDurationFactor.minimum ≤ i)
    (hmax : (i : Int) ≤ k.animationDurationFactor.maximum) :
    ∃ k2, k.load = some k2
      ∧ k2.animationDurationFactor.value = i
      ∧ k2.m_settings.animationDurationFactor = m
      ∧ k2.m_settings.config = m := by
  obtain ⟨k2, hset, hslider, _, hcfg, hsame, hchanged⟩ :=
    KWinCompositingKCM.setSliderValue_in_range
      { k with m_settings := k.m_settings.readConfig } i m hm hmin hmax
  have hfactor : (k.m_settings.readConfig).animationDurationFactor = m := hconfig
  have hload : k.load = some k2 := by
    simp only [KWinCompositingKCM.load, hfactor, hindex]
    exact hset
  refine ⟨k2, hload, ?_, ?_, ?_⟩
  · rw [hslider]
  · by_cases hv : k.animationDurationFactor.value = i
    · rw [hsame hv]
      exact hfactor
    · exact hchanged hv
  · rw [hcfg]
    exact hconfig

/-- C16: the animation-speed round trip.  For every slider index `i` in 0..7 the multiplier
that `save()` stores for `i` outside Plasma is `s_animationMultipliers[i]`, and the index
that `load()` computes from it, by `std::lower_bound` with `std::greater`, is `i` again:
wherever the slider stands when `load()` runs on a module whose configuration holds that
multiplier (in a slider range that holds `i`), `load()` puts the slider at `i`; so it does
after `save()` at `i`, whatever has become of the slider in between. -/
theorem KWinCompositingKCM.animation_speed_round_trip (i : Nat) (hi : i < 8) :
    ∃ m, s_animationMultipliers[i]? = some m
      ∧ loadIndex m = (i : Int)
      ∧ (∀ k : KWinCompositingKCM, k.isRunningPlasma = false →
          k.animationDurationFactor.value = i →
          ∃ k1, k.save = some k1
            ∧ k1.m_settings.config = m
            ∧ k1.animationDurationFactor = k.animationDurationFactor)
      ∧ (∀ k : KWinCompositingKCM, k.m_settings.config = m →
          k.animationDurationFactor.minimum ≤ i →
          (i : Int) ≤ k.animationDurationFactor.maximum →
          ∃ k2, k.load = some k2
            ∧ k2.animationDurationFactor.value = i
            ∧ k2.m_settings.animationDurationFactor = m
            ∧ k2.m_settings.config = m)
      ∧ (∀ (k : KWinCompositingKCM) (slider : QSlider), k.isRunningPlasma = false →
          k.animationDurationFactor.value = i →
          slider.minimum ≤ i → (i : Int) ≤ slider.maximum →
          ∃ k1 k2, k.save = some k1
            ∧ KWinCompositingKCM.load { k1 with animationDurationFactor := slider } = some k2
            ∧ k2.animationDurationFactor.value = i) := by
  obtain ⟨m, hm, hindex⟩ := loadIndex_multiplier i hi
  have hsave : ∀ k : KWinCompositingKCM, k.isRunningPlasma = false →
      k.animationDurationFactor.value = i →
      k.save
        = some { k with m_settings := (k.m_settings.setAnimationDurationFactor m).save } := by
    intro k hplasma hvalue
    simp only [KWinCompositingKCM.save, hplasma, hvalue, Int.toNat_ofNat, hm]
    simp
  refine ⟨m, hm, hindex, ?_, ?_, ?_⟩
  · intro k hplasma hvalue
    exact ⟨_, hsave k hplasma hvalue, rfl, rfl⟩
  · intro k hconfig hmin hmax
    exact KWinCompositingKCM.load_of_config k i m hm hindex hconfig hmin hmax
  · intro k slider hplasma hvalue hmin hmax
    obtain ⟨k2, hload, hvalue2, _, _⟩ :=
      KWinCompositingKCM.load_of_config
        { animationDurationFactor := slider
          m_settings := (k.m_settings.setAnimationDurationFactor m).save
          isRunningPlasma := k.isRunningPlasma } i m hm hindex rfl hmin hmax
    exact ⟨_, k2, hsave k hplasma hvalue, hload, hvalue2⟩

/-- C16 at a module whose configuration holds the multiplier 2 and whose slider stands at 0:
`load()` moves the slider to 2, the index of that multiplier. -/
theorem KWinCompositingKCM.animation_speed_round_trip_witness :
    KWinCompositingKCM.exampleModule.animationDurationFactor.value = 0
    ∧ ∃ k2, KWinCompositingKCM.exampleModule.load = some k2
        ∧ k2.animationDurationFactor.value = 2 := by
  obtain ⟨m, hm, _, _, hload, _⟩ :=
    KWinCompositingKCM.animation_speed_round_trip 2 (by decide)
  have hm2 : m = 2 := by
    have h2 := s_animationMultipliers_get.2.2.1
    rw [hm] at h2
    exact Option.some.inj h2
  subst hm2
  obtain ⟨k2, hk2, hvalue, _, _⟩ :=
    hload KWinCompositingKCM.exampleModule rfl (by decide) (by decide)
  exact ⟨by decide, k2, hk2, hvalue⟩

/-! ## PopupInputFilter -/

theorem PopupInputFilter.cancelPopups_eq (f : PopupInputFilter) :
    f.cancelPopups
      = { m_popupWindows := []
          popupDoneCalls := f.popupDoneCalls ++ f.m_popupWindows.reverse } := by
  obtain ⟨windows, done⟩ := f
  induction windows using List.reverseRecOn generalizing done with
  | nil =>
    rw [PopupInputFilter.cancelPopups]
    simp
  | append_singleton xs a ih =>
    rw [PopupInputFilter.cancelPopups]
    have hne : xs ++ [a] ≠ [] := by simp
    simp only [hne, dite_false, List.dropLast_concat, List.getLast_append_singleton]
    rw [ih]
    simp

theorem PopupInputFilter.handleWindowAdded_nodup (f : PopupInputFilter) (w : WindowPtr)
    (grab : Bool) (h : f.m_popupWindows.Nodup) :
    (f.handleWindowAdded w grab).m_popupWindows.Nodup := by
  unfold PopupInputFilter.handleWindowAdded
  by_cases hc : f.m_popupWindows.contains w = true
  · rw [if_pos hc]
    exact h
  · rw [if_neg hc]
    cases grab
    · exact h
    · have hmem : w ∉ f.m_popupWindows := by
        intro hin
        apply hc
        simpa using hin
      show (f.m_popupWindows ++ [w]).Nodup
      rw [List.nodup_append]
      refine ⟨h, List.nodup_singleton w, ?_⟩
      intro x hx hx2
      simp only [List.mem_singleton] at hx2
      subst hx2
      exact hmem hx

theorem PopupInputFilter.handleWindowAdded_twice (f : PopupInputFilter) (w : WindowPtr)
    (grab : Bool) :
    (f.handleWindowAdded w grab).handleWindowAdded w grab = f.handleWindowAdded w grab := by
  by_cases hc : f.m_popupWindows.contains w = true
  · have h1 : f.handleWindowAdded w grab = f := by
      unfold PopupInputFilter.handleWindowAdded
      rw [if_pos hc]
    rw [h1, h1]
  · cases grab
    · have h1 : f.handleWindowAdded w false = f := by
        unfold PopupInputFilter.handleWindowAdded
        rw [if_neg hc]
        rfl
      rw [h1, h1]
    · have h1 : f.handleWindowAdded w true
          = { f with m_popupWindows := f.m_popupWindows ++ [w] } := by
        unfold PopupInputFilter.handleWindowAdded
        rw [if_neg hc]
        rfl
      rw [h1]
      unfold PopupInputFilter.handleWindowAdded
      have hin : (f.m_popupWindows ++ [w]).contains w = true := by simp
      rw [if_pos hin]

theorem PopupInputFilter.perform_nodup (f : PopupInputFilter) (call : PopupCall)
    (h : f.m_popupWindows.Nodup) : (f.perform call).m_popupWindows.Nodup := by
  cases call with
  | handleWindowAdded w grab => exact PopupInputFilter.handleWindowAdded_nodup f w grab h
  | handleWindowRemoved w => exact h.erase w
  | cancelPopups =>
    simp only [PopupInputFilter.perform, PopupInputFilter.cancelPopups_eq]
    exact List.nodup_nil

theorem PopupInputFilter.performAll_nodup (f : PopupInputFilter) (calls : List PopupCall)
    (h : f.m_popupWindows.Nodup) : (f.performAll calls).m_popupWindows.Nodup := by
  induction calls generalizing f with
  | nil => exact h
  | cons call rest ih =>
    exact ih (f.perform call) (PopupInputFilter.perform_nodup f call h)

theorem PopupInputFilter.perform_mem (f : PopupInputFilter) (call : PopupCall)
    (x : WindowPtr) (hx : x ∈ (f.perform call).m_popupWindows) :
    x ∈ f.m_popupWindows ∨ call = PopupCall.handleWindowAdded x true := by
  cases call with
  | handleWindowAdded w grab =>
    simp only [PopupInputFilter.perform, PopupInputFilter.handleWindowAdded] at hx
    split_ifs at hx with hc hg
    · exact Or.inl hx
    · simp only [List.mem_append, List.mem_singleton] at hx
      rcases hx with hx | hx
      · exact Or.inl hx
      · right
        rw [hx, hg]
    · exact Or.inl hx
  | handleWindowRemoved w =>
    left
    exact List.mem_of_mem_erase hx
  | cancelPopups =>
    simp [PopupInputFilter.perform, PopupInputFilter.cancelPopups_eq] at hx

theorem PopupInputFilter.performAll_mem (calls : List PopupCall) :
    ∀ (f : PopupInputFilter) (x : WindowPtr), x ∈ (f.performAll calls).m_popupWindows →
      x ∈ f.m_popupWindows ∨ PopupCall.handleWindowAdded x true ∈ calls := by
  induction calls with
  | nil =>
    intro f x hx
    exact Or.inl hx
  | cons call rest ih =>
    intro f x hx
    rcases ih (f.perform call) x hx with h | h
    · rcases PopupInputFilter.perform_mem f call x h with h2 | h2
      · exact Or.inl h2
      · right
        rw [h2]
        exact List.mem_cons_self _ _
    · right
      exact List.mem_cons_of_mem _ h

theorem PopupInputFilter.pointerEvent_press (findToplevel : QPoint → Option Toplevel)
    (belongToSameApplication : WindowPtr → WindowPtr → Bool) (f : PopupInputFilter)
    (globalPos : QPoint) (hne : f.m_popupWindows ≠ []) :
    PopupInputFilter.pointerEvent findToplevel belongToSameApplication f
        MouseEventType.MouseButtonPress globalPos
      = match findToplevel globalPos with
        | none => (f.cancelPopups, true)
        | some pointerFocus =>
            if !belongToSameApplication pointerFocus.window (f.m_popupWindows.getLast hne) then
              (f.cancelPopups, true)
            else if pointerFocus.isDecorated then
              if !((QRect.fromPointSize pointerFocus.clientPos
                    pointerFocus.clientSize).translated pointerFocus.pos).contains globalPos then
                (f.cancelPopups, true)
              else
                (f, false)
            else
              (f, false) := by
  unfold PopupInputFilter.pointerEvent
  rw [List.getLast?_eq_getLast _ hne]
  simp

/-- C17: `pointerEvent` on a `MouseButtonPress` while popups are tracked: when there is no
toplevel under the pointer, or the toplevel under it does not belong to the application of
the most recently added popup, every tracked popup is cancelled (`popupDone()` is called on
each, the most recent first, and the list is empty afterwards) and the function returns
true, so that the press is filtered out. -/
theorem PopupInputFilter.press_outside_application_cancels
    (findToplevel : QPoint → Option Toplevel)
    (belongToSameApplication : WindowPtr → WindowPtr → Bool) (f : PopupInputFilter)
    (globalPos : QPoint) (hne : f.m_popupWindows ≠ [])
    (hout : findToplevel globalPos = none
      ∨ ∃ t, findToplevel globalPos = some t
          ∧ belongToSameApplication t.window (f.m_popupWindows.getLast hne) = false) :
    PopupInputFilter.pointerEvent findToplevel belongToSameApplication f
        MouseEventType.MouseButtonPress globalPos = (f.cancelPopups, true)
    ∧ (PopupInputFilter.pointerEvent findToplevel belongToSameApplication f
        MouseEventType.MouseButtonPress globalPos).2 = true
    ∧ (PopupInputFilter.pointerEvent findToplevel belongToSameApplication f
        MouseEventType.MouseButtonPress globalPos).1.m_popupWindows = []
    ∧ (PopupInputFilter.pointerEvent findToplevel belongToSameApplication f
        MouseEventType.MouseButtonPress globalPos).1.popupDoneCalls
      = f.popupDoneCalls ++ f.m_popupWindows.reverse := by
  have hres : PopupInputFilter.pointerEvent findToplevel belongToSameApplication f
      MouseEventType.MouseButtonPress globalPos = (f.cancelPopups, true) := by
    rw [PopupInputFilter.pointerEvent_press findToplevel belongToSameApplication f globalPos
      hne]
    rcases hout with hnone | ⟨t, hsome, hother⟩
    · rw [hnone]
    · rw [hsome]
      simp [hother]
  refine ⟨hres, ?_, ?_, ?_⟩
  · rw [hres]
  · rw [hres, PopupInputFilter.cancelPopups_eq]
  · rw [hres, PopupInputFilter.cancelPopups_eq]

/-- C17 at a filter tracking the popups 1 and 2 with nothing under the pointer: the press is
filtered out, `popupDone()` is called on 2 and then on 1, and no popup stays tracked. -/
theorem PopupInputFilter.press_outside_application_cancels_witness :
    PopupInputFilter.exampleFilter.m_popupWindows = [1, 2]
    ∧ (PopupInputFilter.pointerEvent (fun _ => none) (fun _ _ => true)
        PopupInputFilter.exampleFilter MouseEventType.MouseButtonPress ⟨0, 0⟩).2 = true
    ∧ (PopupInputFilter.pointerEvent (fun _ => none) (fun _ _ => true)
        PopupInputFilter.exampleFilter MouseEventType.MouseButtonPress
        ⟨0, 0⟩).1.m_popupWindows = []
    ∧ (PopupInputFilter.pointerEvent (fun _ => none) (fun _ _ => true)
        PopupInputFilter.exampleFilter MouseEventType.MouseButtonPress
        ⟨0, 0⟩).1.popupDoneCalls = [2, 1] := by
  have h := PopupInputFilter.press_outside_application_cancels (fun _ => none)
    (fun _ _ => true) PopupInputFilter.exampleFilter ⟨0, 0⟩ (by decide) (Or.inl rfl)
  refine ⟨by decide, h.2.1, h.2.2.1, ?_⟩
  rw [h.2.2.2]
  decide

/-- C18: `pointerEvent` on a `MouseButtonPress` over a toplevel of the popup's own
application: when the toplevel is decorated and the press position is not contained in its
client rectangle `QRect(clientPos, clientSize)` translated by `pos` (the press is on the
decoration), all popups are cancelled and true is returned; when the toplevel is not
decorated, or the position is contained in the client rectangle, false is returned and the
filter, with its popup list, is unchanged. -/
theorem PopupInputFilter.press_inside_application
    (findToplevel : QPoint → Option Toplevel)
    (belongToSameApplication : WindowPtr → WindowPtr → Bool) (f : PopupInputFilter)
    (globalPos : QPoint) (t : Toplevel) (hne : f.m_popupWindows ≠ [])
    (hfind : findToplevel globalPos = some t)
    (hsame : belongToSameApplication t.window (f.m_popupWindows.getLast hne) = true) :
    (t.isDecorated = true
        ∧ ((QRect.fromPointSize t.clientPos t.clientSize).translated t.pos).contains
            globalPos = false →
      PopupInputFilter.pointerEvent findToplevel belongToSameApplication f
          MouseEventType.MouseButtonPress globalPos = (f.cancelPopups, true)
      ∧ (PopupInputFilter.pointerEvent findToplevel belongToSameApplication f
          MouseEventType.MouseButtonPress globalPos).1.m_popupWindows = []
      ∧ (PopupInputFilter.pointerEvent findToplevel belongToSameApplication f
          MouseEventType.MouseButtonPress globalPos).1.popupDoneCalls
        = f.popupDoneCalls ++ f.m_popupWindows.reverse)
    ∧ (t.isDecorated = false
        ∨ ((QRect.fromPointSize t.clientPos t.clientSize).translated t.pos).contains
            globalPos = true →
      PopupInputFilter.pointerEvent findToplevel belongToSameApplication f
          MouseEventType.MouseButtonPress globalPos = (f, false)) := by
  have hpress := PopupInputFilter.pointerEvent_press findToplevel belongToSameApplication f
    globalPos hne
  rw [hfind] at hpress
  simp only [hsame, Bool.not_true, Bool.false_eq_true, if_false] at hpress
  constructor
  · rintro ⟨hdec, hcontains⟩
    have hres : PopupInputFilter.pointerEvent findToplevel belongToSameApplication f
        MouseEventType.MouseButtonPress globalPos = (f.cancelPopups, true) := by
      rw [hpress]
      simp [hdec, hcontains]
    refine ⟨hres, ?_, ?_⟩
    · rw [hres, PopupInputFilter.cancelPopups_eq]
    · rw [hres, PopupInputFilter.cancelPopups_eq]
  · intro h
    rw [hpress]
    rcases h with hdec | hcontains
    · simp [hdec]
    · simp [hcontains]

/-- C18 at a decorated toplevel at (100, 100) with the client rectangle (104, 130) to
(303, 229): a press at (110, 110), on the decoration, cancels the popups 2 and 1 and is
filtered out; a press at (150, 150), in the client area, passes and leaves both tracked. -/
theorem PopupInputFilter.press_inside_application_witness :
    (PopupInputFilter.pointerEvent (fun _ => some PopupInputFilter.exampleToplevel)
        (fun _ _ => true) PopupInputFilter.exampleFilter MouseEventType.MouseButtonPress
        ⟨110, 110⟩).2 = true
    ∧ (PopupInputFilter.pointerEvent (fun _ => some PopupInputFilter.exampleToplevel)
        (fun _ _ => true) PopupInputFilter.exampleFilter MouseEventType.MouseButtonPress
        ⟨110, 110⟩).1.m_popupWindows = []
    ∧ PopupInputFilter.pointerEvent (fun _ => some PopupInputFilter.exampleToplevel)
        (fun _ _ => true) PopupInputFilter.exampleFilter MouseEventType.MouseButtonPress
        ⟨150, 150⟩ = (PopupInputFilter.exampleFilter, false) := by
  have h1 := (PopupInputFilter.press_inside_application
    (fun _ => some PopupInputFilter.exampleToplevel) (fun _ _ => true)
    PopupInputFilter.exampleFilter ⟨110, 110⟩ PopupInputFilter.exampleToplevel (by decide)
    rfl rfl).1 (by decide)
  have h2 := (PopupInputFilter.press_inside_application
    (fun _ => some PopupInputFilter.exampleToplevel) (fun _ _ => true)
    PopupInputFilter.exampleFilter ⟨150, 150⟩ PopupInputFilter.exampleToplevel (by decide)
    rfl rfl).2 (Or.inr (by decide))
  refine ⟨?_, h1.2.1, h2⟩
  rw [h1.1]

/-- C19: `cancelPopups` is defined for every popup list (its loop runs once for each tracked
window, the list losing its last window each time), leaves the list empty, and calls
`popupDone()` on the tracked windows in reverse order of insertion, the most recent popup
first: as often on each window as the list holds it, which in every list the filter can
reach is exactly once. -/
theorem PopupInputFilter.cancelPopups_calls_popupDone_in_reverse (f : PopupInputFilter)
    (calls : List PopupCall) :
    f.cancelPopups.m_popupWindows = []
    ∧ f.cancelPopups.popupDoneCalls = f.popupDoneCalls ++ f.m_popupWindows.reverse
    ∧ (∀ w : WindowPtr, f.m_popupWindows.reverse.count w = f.m_popupWindows.count w)
    ∧ (∀ w ∈ (PopupInputFilter.create.performAll calls).m_popupWindows,
        (PopupInputFilter.create.performAll calls).m_popupWindows.reverse.count w = 1)
    ∧ (PopupInputFilter.create.performAll calls).cancelPopups.popupDoneCalls
        = (PopupInputFilter.create.performAll calls).popupDoneCalls
          ++ (PopupInputFilter.create.performAll calls).m_popupWindows.reverse := by
  refine ⟨?_, ?_, ?_, ?_, ?_⟩
  · rw [PopupInputFilter.cancelPopups_eq]
  · rw [PopupInputFilter.cancelPopups_eq]
  · intro w
    simp [List.count_reverse]
  · intro w hw
    have hnodup := PopupInputFilter.performAll_nodup PopupInputFilter.create calls
      List.nodup_nil
    rw [List.count_reverse]
    exact List.count_eq_one_of_mem hnodup hw
  · rw [PopupInputFilter.cancelPopups_eq]

/-- C19 at a filter tracking the popups 1 and 2, added in that order: `popupDone()` is called
on 2, then on 1, and the list is empty. -/
theorem PopupInputFilter.cancelPopups_calls_popupDone_in_reverse_witness :
    PopupInputFilter.exampleFilter.cancelPopups
      = { m_popupWindows := [], popupDoneCalls := [2, 1] } := by
  have h := PopupInputFilter.cancelPopups_calls_popupDone_in_reverse
    PopupInputFilter.exampleFilter []
  have hfields : PopupInputFilter.exampleFilter.cancelPopups
      = { m_popupWindows := PopupInputFilter.exampleFilter.cancelPopups.m_popupWindows
          popupDoneCalls := PopupInputFilter.exampleFilter.cancelPopups.popupDoneCalls } := rfl
  rw [hfields, h.1, h.2.1]
  decide

/-- C20: the tracked popup list never holds a window twice.  Starting from the empty list,
after any sequence of `handleWindowAdded`, `handleWindowRemoved` and `cancelPopups` calls
the list is duplicate-free and holds only windows that had a popup grab in a
`handleWindowAdded` call of the sequence; a second `handleWindowAdded(w)` changes nothing
after the first; and after `handleWindowRemoved(w)` the list does not hold `w`. -/
theorem PopupInputFilter.tracked_popups_are_distinct (calls : List PopupCall)
    (w : WindowPtr) (hasPopupGrab : Bool) :
    (PopupInputFilter.create.performAll calls).m_popupWindows.Nodup
    ∧ (∀ x ∈ (PopupInputFilter.create.performAll calls).m_popupWindows,
        PopupCall.handleWindowAdded x true ∈ calls)
    ∧ ((PopupInputFilter.create.performAll calls).handleWindowAdded w
          hasPopupGrab).handleWindowAdded w hasPopupGrab
        = (PopupInputFilter.create.performAll calls).handleWindowAdded w hasPopupGrab
    ∧ w ∉ ((PopupInputFilter.create.performAll calls).handleWindowRemoved w).m_popupWindows := by
  have hnodup := PopupInputFilter.performAll_nodup PopupInputFilter.create calls
    List.nodup_nil
  refine ⟨hnodup, ?_, ?_, ?_⟩
  · intro x hx
    rcases PopupInputFilter.performAll_mem calls PopupInputFilter.create x hx with h | h
    · simp [PopupInputFilter.create] at h
    · exact h
  · exact PopupInputFilter.handleWindowAdded_twice _ w hasPopupGrab
  · simp only [PopupInputFilter.handleWindowRemoved]
    intro hin
    have := (List.Nodup.mem_erase_iff hnodup).mp hin
    exact this.1 rfl

end KWin
